import Mathlib

/-!
Shallow embedding of the admission-control subsystem of the GABI repository:
the in-memory multi-dimensional rate limiter (`rateLimitStore.ts`, the
`RateLimitStoreManager` class) and its HTTP-facing facade (`rateLimiter.ts`,
the `RateLimiter` class), together with the type declarations of
`middleware/types.ts`.

Timestamps are milliseconds since epoch, modelled as `Nat` (the JS code only
ever compares and adds them).  JS `number` arithmetic on counters stays within
small integers, so counters are `Nat`; the `remaining` fields are `Int`
because the source computes them by subtraction that can go negative in corner
cases.  JS `Map<string, T>` is modelled as an association list with
last-write-wins update, and `Set<string>` as a `Finset String`.
-/

/-- Association-list model of a JS `Map<string, α>`. -/
abbrev RLMap (α : Type) : Type := List (String × α)

/-- The empty map (`new Map()`). -/
def RLMap.empty {α : Type} : RLMap α := []

/-- Lookup (`map.get(k)`). -/
def RLMap.get {α : Type} : RLMap α → String → Option α
  | [], _ => none
  | (k', v) :: rest, k => if k' = k then some v else get rest k

/-- Insert or overwrite (`map.set(k, v)`). -/
def RLMap.set {α : Type} : RLMap α → String → α → RLMap α
  | [], k, v => [(k, v)]
  | (k', v') :: rest, k, v =>
      if k' = k then (k, v) :: rest else (k', v') :: set rest k v

/-- Deletion (`map.delete(k)`). -/
def RLMap.erase {α : Type} : RLMap α → String → RLMap α
  | [], _ => []
  | (k', v') :: rest, k =>
      if k' = k then rest else (k', v') :: erase rest k

/-! ### Data model (`middleware/types.ts`, the variant implemented in `rateLimitStore.ts`) -/

/-- Entry of the per-client request-rate window (`RequestLimitData`). -/
structure RequestLimitData where
  count : Nat
  resetTime : Nat
  deriving DecidableEq, Repr

/-- Entry of the per-client daily token budget (`TokenLimitData`). -/
structure TokenLimitData where
  dailyUsage : Nat
  resetTime : Nat
  deriving DecidableEq, Repr

/-- Entry of the per-client concurrent-session record (`SessionLimitData`).
The source keeps both the explicit counter and the id set. -/
structure SessionLimitData where
  activeCount : Nat
  sessionIds : Finset String
  deriving DecidableEq

/-- The three dimension maps owned by the store (`RateLimitStore`). -/
structure RateLimitStore where
  requests : RLMap RequestLimitData
  tokens : RLMap TokenLimitData
  sessions : RLMap SessionLimitData

/-- Static thresholds (`RateLimitConfig`, the variant without burst fields). -/
structure RateLimitConfig where
  requestsLimit : Nat
  requestsWindowMs : Nat
  tokensLimit : Nat
  tokensWindowMs : Nat
  sessionsLimit : Nat
  deriving DecidableEq, Repr

/-- The concrete configuration built in the `RateLimitStoreManager` constructor:
10 requests per hour, 5000 tokens per day, 3 concurrent sessions. -/
def defaultConfig : RateLimitConfig :=
  { requestsLimit := 10
    requestsWindowMs := 60 * 60 * 1000
    tokensLimit := 5000
    tokensWindowMs := 24 * 60 * 60 * 1000
    sessionsLimit := 3 }

/-- The store the constructor starts from: three empty maps. -/
def emptyStore : RateLimitStore :=
  { requests := RLMap.empty, tokens := RLMap.empty, sessions := RLMap.empty }

/-- Result triple of `checkRequestLimit` and `checkTokenLimit`. -/
structure CheckResult where
  allowed : Bool
  remaining : Int
  resetTime : Nat
  deriving DecidableEq, Repr

/-- Result pair of `checkSessionLimit`. -/
structure SessionCheckResult where
  allowed : Bool
  remaining : Int
  deriving DecidableEq, Repr

/-! ### Store operations (`RateLimitStoreManager`, rateLimitStore.ts lines 59-185) -/

/-- Embedding of `RateLimitStoreManager.checkRequestLimit(ip)`.  `now` stands
for the `Date.now()` call at the top of the method.  Returns the result object
together with the updated store. -/
def checkRequestLimit (cfg : RateLimitConfig) (now : Nat) (ip : String)
    (s : RateLimitStore) : CheckResult × RateLimitStore :=
  let freshCase : CheckResult × RateLimitStore :=
    let resetTime := now + cfg.requestsWindowMs
    ({ allowed := true
       remaining := (cfg.requestsLimit : Int) - 1
       resetTime := resetTime },
     { s with requests := s.requests.set ip { count := 1, resetTime := resetTime } })
  match s.requests.get ip with
  | none => freshCase
  | some data =>
      if data.resetTime ≤ now then freshCase
      else if cfg.requestsLimit ≤ data.count then
        ({ allowed := false, remaining := 0, resetTime := data.resetTime }, s)
      else
        let requests2 := s.requests.set ip { count := data.count + 1, resetTime := data.resetTime }
        ({ allowed := true
           remaining := (cfg.requestsLimit : Int) - (data.count + 1)
           resetTime := data.resetTime },
         { s with requests := requests2 })

/-- Embedding of `RateLimitStoreManager.checkTokenLimit(ip, estimatedTokens)`. -/
def checkTokenLimit (cfg : RateLimitConfig) (now : Nat) (ip : String)
    (estimatedTokens : Nat) (s : RateLimitStore) : CheckResult × RateLimitStore :=
  let freshCase : CheckResult × RateLimitStore :=
    let resetTime := now + cfg.tokensWindowMs
    let newUsage := estimatedTokens
    ({ allowed := decide (newUsage ≤ cfg.tokensLimit)
       remaining := max 0 ((cfg.tokensLimit : Int) - newUsage)
       resetTime := resetTime },
     { s with tokens := s.tokens.set ip { dailyUsage := newUsage, resetTime := resetTime } })
  match s.tokens.get ip with
  | none => freshCase
  | some data =>
      if data.resetTime ≤ now then freshCase
      else
        let newTotal := data.dailyUsage + estimatedTokens
        if cfg.tokensLimit < newTotal then
          ({ allowed := false
             remaining := max 0 ((cfg.tokensLimit : Int) - data.dailyUsage)
             resetTime := data.resetTime }, s)
        else
          let tokens2 := s.tokens.set ip { dailyUsage := newTotal, resetTime := data.resetTime }
          ({ allowed := true
             remaining := (cfg.tokensLimit : Int) - newTotal
             resetTime := data.resetTime },
           { s with tokens := tokens2 })

/-- Embedding of `RateLimitStoreManager.checkSessionLimit(ip, sessionId)`.
Note that the method reads no clock: the session dimension is time-free. -/
def checkSessionLimit (cfg : RateLimitConfig) (ip sessionId : String)
    (s : RateLimitStore) : SessionCheckResult × RateLimitStore :=
  match s.sessions.get ip with
  | none =>
      let sessions2 := s.sessions.set ip { activeCount := 1, sessionIds := {sessionId} }
      ({ allowed := true, remaining := (cfg.sessionsLimit : Int) - 1 },
       { s with sessions := sessions2 })
  | some data =>
      if sessionId ∈ data.sessionIds then
        ({ allowed := true
           remaining := (cfg.sessionsLimit : Int) - data.activeCount }, s)
      else if cfg.sessionsLimit ≤ data.activeCount then
        ({ allowed := false, remaining := 0 }, s)
      else
        let sessions2 := s.sessions.set ip
          { activeCount := data.activeCount + 1, sessionIds := insert sessionId data.sessionIds }
        ({ allowed := true
           remaining := (cfg.sessionsLimit : Int) - (data.activeCount + 1) },
         { s with sessions := sessions2 })

/-- Embedding of `RateLimitStoreManager.removeSession(ip, sessionId)`. -/
def removeSession (ip sessionId : String) (s : RateLimitStore) : RateLimitStore :=
  match s.sessions.get ip with
  | none => s
  | some data =>
      if sessionId ∈ data.sessionIds then
        let ids := data.sessionIds.erase sessionId
        if ids.card = 0 then
          { s with sessions := s.sessions.erase ip }
        else
          let sessions2 := s.sessions.set ip { activeCount := ids.card, sessionIds := ids }
          { s with sessions := sessions2 }
      else s

/-- Embedding of `cleanExpiredEntries` applied to the requests map; the
cleanup task registered in `startCleanupTasks` runs it every 10 minutes. -/
def cleanExpiredRequests (now : Nat) (s : RateLimitStore) : RateLimitStore :=
  { s with requests := s.requests.filter (fun kv => now < kv.2.resetTime) }

/-- Embedding of `cleanExpiredEntries` applied to the tokens map; the cleanup
task registered in `startCleanupTasks` runs it every hour.  No cleanup task is
ever registered for the sessions map. -/
def cleanExpiredTokens (now : Nat) (s : RateLimitStore) : RateLimitStore :=
  { s with tokens := s.tokens.filter (fun kv => now < kv.2.resetTime) }

/-- Embedding of `RateLimitStoreManager.estimateTokens(text)`:
`Math.ceil(text.length / 4)`. -/
def estimateTokens (text : String) : Nat :=
  (text.length + 3) / 4

/-! ### Admission facade (`RateLimiter`, rateLimiter.ts) -/

/-- The dimension tag of a rate-limit decision (the string union
`'requests' | 'tokens' | 'sessions' | 'burst'` of `middleware/types.ts`). -/
inductive LimitType where
  | requests
  | tokens
  | sessions
  | burst
  deriving DecidableEq, Repr

/-- Rendering of a `LimitType` as the string the source stores in the
`type` field and the `X-RateLimit-Type` header. -/
def LimitType.toText : LimitType → String
  | .requests => "requests"
  | .tokens => "tokens"
  | .sessions => "sessions"
  | .burst => "burst"

/-- Structured rejection/admission record (`RateLimitResult`). -/
structure RateLimitResult where
  allowed : Bool
  resetTime : Nat
  remaining : Int
  limit : Nat
  type : LimitType
  deriving DecidableEq, Repr

/-- Header set of `createRateLimitHeaders` (`RateLimitHeaders`): the four
always-present headers plus the optional `Retry-After`. -/
structure RateLimitHeaders where
  limitHeader : String
  remainingHeader : String
  resetHeader : String
  typeHeader : String
  retryAfter : Option String
  deriving DecidableEq, Repr

/-- Ceiling of `x / 1000` over the integers, the meaning of the source's
`Math.ceil((resetTime - Date.now()) / 1000)` on millisecond differences. -/
def ceilSeconds (x : Int) : Int :=
  -(Int.fdiv (-x) 1000)

/-- Embedding of `RateLimiter.createRateLimitHeaders(result)`; `now` stands
for the `Date.now()` call inside it. -/
def createRateLimitHeaders (now : Nat) (result : RateLimitResult) : RateLimitHeaders :=
  { limitHeader := toString result.limit
    remainingHeader := toString result.remaining
    resetHeader := toString result.resetTime
    typeHeader := result.type.toText
    retryAfter :=
      if result.allowed then none
      else some (toString (ceilSeconds ((result.resetTime : Int) - (now : Int)))) }

/-- Embedding of `RateLimiter.checkLimits(request, messageText)` after client
identity has been resolved: `ip` and `sessionId` are what `getClientIP` and
`getSessionId` produced, `now` the current clock.  Returns `some rejection`
where the source returns a 429 response, `none` where it returns `null`, and
the store as mutated by the checks actually reached. -/
def checkLimits (cfg : RateLimitConfig) (now : Nat) (ip sessionId messageText : String)
    (s : RateLimitStore) : Option RateLimitResult × RateLimitStore :=
  let estimatedTokens := estimateTokens messageText
  let requestPair := checkRequestLimit cfg now ip s
  if requestPair.1.allowed = false then
    (some { allowed := false
            resetTime := requestPair.1.resetTime
            remaining := requestPair.1.remaining
            limit := cfg.requestsLimit
            type := .requests }, requestPair.2)
  else
    let tokenPair := checkTokenLimit cfg now ip estimatedTokens requestPair.2
    if tokenPair.1.allowed = false then
      (some { allowed := false
              resetTime := tokenPair.1.resetTime
              remaining := tokenPair.1.remaining
              limit := cfg.tokensLimit
              type := .tokens }, tokenPair.2)
    else
      let sessionPair := checkSessionLimit cfg ip sessionId tokenPair.2
      if sessionPair.1.allowed = false then
        -- the source fabricates a reset one minute out:
        -- resetTime: Date.now() + 60000, "Sessions don't have time-based reset"
        (some { allowed := false
                resetTime := now + 60000
                remaining := sessionPair.1.remaining
                limit := cfg.sessionsLimit
                type := .sessions }, sessionPair.2)
      else
        (none, sessionPair.2)

/-- The seven informational headers set by `addRateLimitHeaders`. -/
structure DimensionHeaders where
  reqLimit : String
  reqRemaining : String
  reqReset : String
  tokLimit : String
  tokRemaining : String
  tokReset : String
  sesLimit : String
  deriving DecidableEq, Repr

/-- Embedding of `RateLimiter.addRateLimitHeaders(response, request, messageText)`.
The source comments call this step "Get current limits for headers" and label
the token read "Check without consuming", yet it obtains the request figures
from `checkRequestLimit`, the mutating admission check.  A JS `messageText`
argument is truthy exactly when it is present and non-empty. -/
def addRateLimitHeaders (cfg : RateLimitConfig) (now : Nat) (ip : String)
    (messageText : Option String) (s : RateLimitStore) :
    DimensionHeaders × RateLimitStore :=
  let requestPair := checkRequestLimit cfg now ip s
  let tokenPair : (Int × Nat) × RateLimitStore :=
    match messageText with
    | some t =>
        if t.length ≠ 0 then
          let p := checkTokenLimit cfg now ip 0 requestPair.2
          ((p.1.remaining, p.1.resetTime), p.2)
        else ((cfg.tokensLimit, now + cfg.tokensWindowMs), requestPair.2)
    | none => ((cfg.tokensLimit, now + cfg.tokensWindowMs), requestPair.2)
  ({ reqLimit := toString cfg.requestsLimit
     reqRemaining := toString requestPair.1.remaining
     reqReset := toString requestPair.1.resetTime
     tokLimit := toString cfg.tokensLimit
     tokRemaining := toString tokenPair.1.1
     tokReset := toString tokenPair.1.2
     sesLimit := toString cfg.sessionsLimit }, tokenPair.2)

/-! ### Operation sequences over the store

Every way the running system touches the store: the three admission checks,
session release, the two cleanup tasks of `startCleanupTasks`, and the two
facade entry points that drive them (`checkLimits`, `addRateLimitHeaders`). -/

/-- One store-touching operation, with the clock value it observes. -/
inductive StoreOp where
  | reqCheck (now : Nat) (ip : String)
  | tokCheck (now : Nat) (ip : String) (estimatedTokens : Nat)
  | sesCheck (ip sessionId : String)
  | sesRelease (ip sessionId : String)
  | sweepRequests (now : Nat)
  | sweepTokens (now : Nat)
  | facadeCheck (now : Nat) (ip sessionId messageText : String)
  | facadeHeaders (now : Nat) (ip : String) (messageText : Option String)

/-- State transition of a single operation (results discarded). -/
def applyOp (cfg : RateLimitConfig) (s : RateLimitStore) : StoreOp → RateLimitStore
  | .reqCheck now ip => (checkRequestLimit cfg now ip s).2
  | .tokCheck now ip est => (checkTokenLimit cfg now ip est s).2
  | .sesCheck ip sid => (checkSessionLimit cfg ip sid s).2
  | .sesRelease ip sid => removeSession ip sid s
  | .sweepRequests now => cleanExpiredRequests now s
  | .sweepTokens now => cleanExpiredTokens now s
  | .facadeCheck now ip sid msg => (checkLimits cfg now ip sid msg s).2
  | .facadeHeaders now ip msg => (addRateLimitHeaders cfg now ip msg s).2

/-- State after a whole sequence of operations. -/
def runOps (cfg : RateLimitConfig) (s : RateLimitStore) (ops : List StoreOp) : RateLimitStore :=
  ops.foldl (applyOp cfg) s

/-- Per-entry property holding everywhere in a map. -/
def MapAll {α : Type} (P : α → Prop) (m : RLMap α) : Prop :=
  ∀ p ∈ m, P p.2

/-- Invariant: every stored request count is within the configured limit. -/
def RequestsBounded (cfg : RateLimitConfig) (s : RateLimitStore) : Prop :=
  MapAll (fun d => d.count ≤ cfg.requestsLimit) s.requests

/-- Invariant: every stored daily usage is within the configured limit. -/
def TokensBounded (cfg : RateLimitConfig) (s : RateLimitStore) : Prop :=
  MapAll (fun d => d.dailyUsage ≤ cfg.tokensLimit) s.tokens

/-- Side condition for the usage-budget dimension: the estimate a token
check carries does not on its own exceed the daily limit. -/
def OpEstimateOk (cfg : RateLimitConfig) : StoreOp → Prop
  | .tokCheck _ _ est => est ≤ cfg.tokensLimit
  | .facadeCheck _ _ _ msg => estimateTokens msg ≤ cfg.tokensLimit
  | _ => True

/-- Operations that are not a session release for the given key. -/
def NotReleasing (ip : String) : StoreOp → Prop
  | .sesRelease ip2 _ => ip2 ≠ ip
  | _ => True

/-! ### The burst-and-exemption variant

The repository's QA log (2025-08-06, "Rate Limiter Configuration Updated")
records an updated `rateLimitStore.ts` / `rateLimiter.ts` with a 3 req/sec
burst window and a local-IP exemption for session limits only, and the
matching `middleware/types.ts` variant declares `burstLimit`,
`burstWindowMs`, `burstRequests` and `exemptIPs`.  The updated implementation
files themselves are not part of the snapshot, so the burst check and the
exemption-aware facade below are modelled from the specification; the
dimensions shared with the older implementation reuse its embedded checks. -/

/-- Configuration of the burst variant (`RateLimitConfig` of the burst-variant
`types.ts`: `requests.{limit,windowMs,burstLimit,burstWindowMs}`,
`tokens.{limit,windowMs}`, `sessions.{limit,windowMs,exemptIPs}`). -/
structure RateLimitConfigFull where
  requestsLimit : Nat
  requestsWindowMs : Nat
  burstLimit : Nat
  burstWindowMs : Nat
  tokensLimit : Nat
  tokensWindowMs : Nat
  sessionsLimit : Nat
  sessionsWindowMs : Nat
  exemptIPs : List String
  deriving DecidableEq, Repr

/-- Store of the burst variant (`RateLimitStore` of the burst-variant
`types.ts`): the three maps plus `burstRequests`. -/
structure RateLimitStoreFull where
  requests : RLMap RequestLimitData
  tokens : RLMap TokenLimitData
  sessions : RLMap SessionLimitData
  burstRequests : RLMap RequestLimitData

/-- The non-burst thresholds of a full configuration. -/
def RateLimitConfigFull.plain (cfg : RateLimitConfigFull) : RateLimitConfig :=
  { requestsLimit := cfg.requestsLimit
    requestsWindowMs := cfg.requestsWindowMs
    tokensLimit := cfg.tokensLimit
    tokensWindowMs := cfg.tokensWindowMs
    sessionsLimit := cfg.sessionsLimit }

/-- The three shared maps of a full store. -/
def RateLimitStoreFull.plain (s : RateLimitStoreFull) : RateLimitStore :=
  { requests := s.requests, tokens := s.tokens, sessions := s.sessions }

/-- A full store with its three shared maps replaced. -/
def RateLimitStoreFull.withPlain (s : RateLimitStoreFull) (p : RateLimitStore) :
    RateLimitStoreFull :=
  { requests := p.requests, tokens := p.tokens, sessions := p.sessions
    burstRequests := s.burstRequests }

/-- Modelled from the spec: `checkAndIncrementBurst` (§4.1) of the updated
`rateLimitStore.ts`, which is absent from the snapshot — "identical
algorithm" to the request check, on an "independent shorter window and
independent limit", kept in the `burstRequests` map. -/
def checkBurstLimit (cfg : RateLimitConfigFull) (now : Nat) (ip : String)
    (s : RateLimitStoreFull) : CheckResult × RateLimitStoreFull :=
  let freshCase : CheckResult × RateLimitStoreFull :=
    let resetTime := now + cfg.burstWindowMs
    ({ allowed := true
       remaining := (cfg.burstLimit : Int) - 1
       resetTime := resetTime },
     { s with burstRequests := s.burstRequests.set ip { count := 1, resetTime := resetTime } })
  match s.burstRequests.get ip with
  | none => freshCase
  | some data =>
      if data.resetTime ≤ now then freshCase
      else if cfg.burstLimit ≤ data.count then
        ({ allowed := false, remaining := 0, resetTime := data.resetTime }, s)
      else
        let burst2 := s.burstRequests.set ip { count := data.count + 1, resetTime := data.resetTime }
        ({ allowed := true
           remaining := (cfg.burstLimit : Int) - (data.count + 1)
           resetTime := data.resetTime },
         { s with burstRequests := burst2 })

/-- Modelled from the spec: the updated `RateLimiter.checkLimits` (§4.2),
absent from the snapshot — "evaluate dimensions in this fixed order:
burst → request-rate → usage-budget → session.  The first dimension that
rejects short-circuits evaluation", and "a caller-supplied exemption list
(by ClientKey) bypasses the session dimension only".  The non-burst
dimensions are the checks of the embedded `rateLimitStore.ts`. -/
def checkLimitsFull (cfg : RateLimitConfigFull) (now : Nat)
    (ip sessionId messageText : String) (s : RateLimitStoreFull) :
    Option RateLimitResult × RateLimitStoreFull :=
  let estimatedTokens := estimateTokens messageText
  let burstPair := checkBurstLimit cfg now ip s
  if burstPair.1.allowed = false then
    (some { allowed := false
            resetTime := burstPair.1.resetTime
            remaining := burstPair.1.remaining
            limit := cfg.burstLimit
            type := .burst }, burstPair.2)
  else
    let requestPair := checkRequestLimit cfg.plain now ip burstPair.2.plain
    if requestPair.1.allowed = false then
      (some { allowed := false
              resetTime := requestPair.1.resetTime
              remaining := requestPair.1.remaining
              limit := cfg.requestsLimit
              type := .requests }, burstPair.2.withPlain requestPair.2)
    else
      let tokenPair := checkTokenLimit cfg.plain now ip estimatedTokens requestPair.2
      if tokenPair.1.allowed = false then
        (some { allowed := false
                resetTime := tokenPair.1.resetTime
                remaining := tokenPair.1.remaining
                limit := cfg.tokensLimit
                type := .tokens }, burstPair.2.withPlain tokenPair.2)
      else
        if ip ∈ cfg.exemptIPs then
          (none, burstPair.2.withPlain tokenPair.2)
        else
          let sessionPair := checkSessionLimit cfg.plain ip sessionId tokenPair.2
          if sessionPair.1.allowed = false then
            (some { allowed := false
                    resetTime := now + 60000
                    remaining := sessionPair.1.remaining
                    limit := cfg.sessionsLimit
                    type := .sessions }, burstPair.2.withPlain sessionPair.2)
          else
            (none, burstPair.2.withPlain sessionPair.2)

/-- N-fold repetition of `checkSessionLimit` for one key and session id,
keeping only the store. -/
def admitSessionIter (cfg : RateLimitConfig) (ip sid : String) (n : Nat)
    (s : RateLimitStore) : RateLimitStore :=
  (fun s2 => (checkSessionLimit cfg ip sid s2).2)^[n] s

theorem RLMap.get_set_self {α : Type} (m : RLMap α) (k : String) (v : α) :
    (m.set k v).get k = some v := by
  induction m with
  | nil => simp [set, get]
  | cons hd tl ih =>
      by_cases h : hd.1 = k
      · simp [set, get, h]
      · simp [set, get, h, ih]

theorem RLMap.get_set_ne {α : Type} (m : RLMap α) (k k' : String) (v : α)
    (hne : k ≠ k') : (m.set k v).get k' = m.get k' := by
  induction m with
  | nil => simp [set, get, hne]
  | cons hd tl ih =>
      by_cases h : hd.1 = k
      · simp [set, get, h, hne]
      · simp only [set, h, if_false, get]
        by_cases h2 : hd.1 = k'
        · simp [h2]
        · simp [h2, ih]

theorem RLMap.get_mem {α : Type} (m : RLMap α) (k : String) (v : α)
    (h : m.get k = some v) : (k, v) ∈ m := by
  induction m with
  | nil => simp [get] at h
  | cons hd tl ih =>
      by_cases hk : hd.1 = k
      · simp only [get, hk, if_true, Option.some.injEq] at h
        subst h; subst hk
        exact List.mem_cons_self _ _
      · simp only [get, hk, if_false] at h
        exact List.mem_cons_of_mem _ (ih h)

theorem RLMap.mem_set {α : Type} (m : RLMap α) (k k' : String) (v v' : α)
    (h : (k', v') ∈ m.set k v) : (k' = k ∧ v' = v) ∨ (k', v') ∈ m := by
  induction m with
  | nil =>
      simp only [set, List.mem_singleton, Prod.mk.injEq] at h
      exact Or.inl h
  | cons hd tl ih =>
      by_cases hk : hd.1 = k
      · simp only [set, hk, if_true, List.mem_cons, Prod.mk.injEq] at h
        rcases h with h | h
        · exact Or.inl h
        · exact Or.inr (List.mem_cons_of_mem _ h)
      · simp only [set, hk, if_false, List.mem_cons] at h
        rcases h with h | h
        · exact Or.inr (List.mem_cons.mpr (Or.inl h))
        · rcases ih h with h2 | h2
          · exact Or.inl h2
          · exact Or.inr (List.mem_cons_of_mem _ h2)

theorem RLMap.mem_erase {α : Type} (m : RLMap α) (k : String) (x : String × α)
    (h : x ∈ m.erase k) : x ∈ m := by
  induction m with
  | nil => simp [erase] at h
  | cons hd tl ih =>
      by_cases hk : hd.1 = k
      · simp only [erase, hk, if_true] at h
        exact List.mem_cons_of_mem _ h
      · simp only [erase, hk, if_false, List.mem_cons] at h
        rcases h with h | h
        · exact List.mem_cons.mpr (Or.inl h)
        · exact List.mem_cons_of_mem _ (ih h)

theorem RLMap.mem_filter {α : Type} (m : RLMap α) (p : String × α → Bool) (x : String × α)
    (h : x ∈ List.filter p m) : x ∈ m :=
  List.mem_of_mem_filter h

theorem MapAll.set {α : Type} {P : α → Prop} {m : RLMap α} {k : String} {v : α}
    (h : MapAll P m) (hv : P v) : MapAll P (m.set k v) := by
  intro p hp
  rcases RLMap.mem_set m k p.1 v p.2 hp with h2 | h2
  · rw [h2.2]; exact hv
  · exact h p h2

theorem MapAll.filter {α : Type} {P : α → Prop} {m : RLMap α} {q : String × α → Bool}
    (h : MapAll P m) : MapAll P (List.filter q m) := by
  intro p hp
  exact h p (RLMap.mem_filter m q p hp)

theorem MapAll.erase {α : Type} {P : α → Prop} {m : RLMap α} {k : String}
    (h : MapAll P m) : MapAll P (m.erase k) := by
  intro p hp
  exact h p (RLMap.mem_erase m k p hp)

theorem MapAll.get {α : Type} {P : α → Prop} {m : RLMap α} {k : String} {v : α}
    (h : MapAll P m) (hg : m.get k = some v) : P v :=
  h (k, v) (RLMap.get_mem m k v hg)

/-! ### Frame lemmas: each operation touches only its own dimension map -/

theorem checkRequestLimit_tokens_eq (cfg : RateLimitConfig) (now : Nat) (ip : String)
    (s : RateLimitStore) : (checkRequestLimit cfg now ip s).2.tokens = s.tokens := by
  unfold checkRequestLimit
  cases hm : s.requests.get ip with
  | none => rfl
  | some data =>
      by_cases h1 : data.resetTime ≤ now
      · simp [h1]
      · by_cases h2 : cfg.requestsLimit ≤ data.count
        · simp [h1, h2]
        · simp [h1, h2]

theorem checkRequestLimit_sessions_eq (cfg : RateLimitConfig) (now : Nat) (ip : String)
    (s : RateLimitStore) : (checkRequestLimit cfg now ip s).2.sessions = s.sessions := by
  unfold checkRequestLimit
  cases hm : s.requests.get ip with
  | none => rfl
  | some data =>
      by_cases h1 : data.resetTime ≤ now
      · simp [h1]
      · by_cases h2 : cfg.requestsLimit ≤ data.count
        · simp [h1, h2]
        · simp [h1, h2]

theorem checkTokenLimit_requests_eq (cfg : RateLimitConfig) (now : Nat) (ip : String)
    (est : Nat) (s : RateLimitStore) :
    (checkTokenLimit cfg now ip est s).2.requests = s.requests := by
  unfold checkTokenLimit
  cases hm : s.tokens.get ip with
  | none => rfl
  | some data =>
      by_cases h1 : data.resetTime ≤ now
      · simp [h1]
      · by_cases h2 : cfg.tokensLimit < data.dailyUsage + est
        · simp [h1, h2]
        · simp [h1, h2]

theorem checkTokenLimit_sessions_eq (cfg : RateLimitConfig) (now : Nat) (ip : String)
    (est : Nat) (s : RateLimitStore) :
    (checkTokenLimit cfg now ip est s).2.sessions = s.sessions := by
  unfold checkTokenLimit
  cases hm : s.tokens.get ip with
  | none => rfl
  | some data =>
      by_cases h1 : data.resetTime ≤ now
      · simp [h1]
      · by_cases h2 : cfg.tokensLimit < data.dailyUsage + est
        · simp [h1, h2]
        · simp [h1, h2]

theorem checkSessionLimit_requests_eq (cfg : RateLimitConfig) (ip sid : String)
    (s : RateLimitStore) : (checkSessionLimit cfg ip sid s).2.requests = s.requests := by
  unfold checkSessionLimit
  cases hm : s.sessions.get ip with
  | none => rfl
  | some data =>
      by_cases h1 : sid ∈ data.sessionIds
      · simp [h1]
      · by_cases h2 : cfg.sessionsLimit ≤ data.activeCount
        · simp [h1, h2]
        · simp [h1, h2]

theorem checkSessionLimit_tokens_eq (cfg : RateLimitConfig) (ip sid : String)
    (s : RateLimitStore) : (checkSessionLimit cfg ip sid s).2.tokens = s.tokens := by
  unfold checkSessionLimit
  cases hm : s.sessions.get ip with
  | none => rfl
  | some data =>
      by_cases h1 : sid ∈ data.sessionIds
      · simp [h1]
      · by_cases h2 : cfg.sessionsLimit ≤ data.activeCount
        · simp [h1, h2]
        · simp [h1, h2]

theorem removeSession_requests_eq (ip sid : String) (s : RateLimitStore) :
    (removeSession ip sid s).requests = s.requests := by
  unfold removeSession
  cases hm : s.sessions.get ip with
  | none => rfl
  | some data =>
      by_cases h1 : sid ∈ data.sessionIds
      · simp only [h1, if_true]
        split <;> rfl
      · simp [h1]

theorem removeSession_tokens_eq (ip sid : String) (s : RateLimitStore) :
    (removeSession ip sid s).tokens = s.tokens := by
  unfold removeSession
  cases hm : s.sessions.get ip with
  | none => rfl
  | some data =>
      by_cases h1 : sid ∈ data.sessionIds
      · simp only [h1, if_true]
        split <;> rfl
      · simp [h1]

/-! ### Bound preservation of the per-dimension checks -/

theorem checkRequestLimit_bounded (cfg : RateLimitConfig) (now : Nat) (ip : String)
    (s : RateLimitStore) (h1 : 1 ≤ cfg.requestsLimit) (h : RequestsBounded cfg s) :
    RequestsBounded cfg (checkRequestLimit cfg now ip s).2 := by
  unfold RequestsBounded at *
  unfold checkRequestLimit
  cases hm : s.requests.get ip with
  | none => exact MapAll.set h h1
  | some data =>
      by_cases hx : data.resetTime ≤ now
      · simp only [hx, if_true]
        exact MapAll.set h h1
      · by_cases h2 : cfg.requestsLimit ≤ data.count
        · simp only [hx, if_false, h2, if_true]
          exact h
        · simp only [hx, if_false, h2]
          exact MapAll.set h (Nat.succ_le_of_lt (Nat.lt_of_not_le h2))

theorem checkTokenLimit_bounded (cfg : RateLimitConfig) (now : Nat) (ip : String)
    (est : Nat) (s : RateLimitStore) (hest : est ≤ cfg.tokensLimit)
    (h : TokensBounded cfg s) :
    TokensBounded cfg (checkTokenLimit cfg now ip est s).2 := by
  unfold TokensBounded at *
  unfold checkTokenLimit
  cases hm : s.tokens.get ip with
  | none => exact MapAll.set h hest
  | some data =>
      by_cases hx : data.resetTime ≤ now
      · simp only [hx, if_true]
        exact MapAll.set h hest
      · by_cases h2 : cfg.tokensLimit < data.dailyUsage + est
        · simp only [hx, if_false, h2, if_true]
          exact h
        · simp only [hx, if_false, h2]
          exact MapAll.set h (Nat.le_of_not_lt h2)

/-- The facade's admission path ends in one of the three stores along the
check chain (whichever check rejected first, or the final one). -/
theorem checkLimits_snd_cases (cfg : RateLimitConfig) (now : Nat)
    (ip sid msg : String) (s : RateLimitStore) :
    (checkLimits cfg now ip sid msg s).2 = (checkRequestLimit cfg now ip s).2 ∨
    (checkLimits cfg now ip sid msg s).2 =
      (checkTokenLimit cfg now ip (estimateTokens msg) (checkRequestLimit cfg now ip s).2).2 ∨
    (checkLimits cfg now ip sid msg s).2 =
      (checkSessionLimit cfg ip sid
        (checkTokenLimit cfg now ip (estimateTokens msg) (checkRequestLimit cfg now ip s).2).2).2 := by
  unfold checkLimits
  by_cases hr : (checkRequestLimit cfg now ip s).1.allowed = false
  · simp [hr]
  · simp only [hr, if_false]
    by_cases ht : (checkTokenLimit cfg now ip (estimateTokens msg)
        (checkRequestLimit cfg now ip s).2).1.allowed = false
    · simp [ht]
    · simp only [ht, if_false]
      by_cases hs : (checkSessionLimit cfg ip sid
          (checkTokenLimit cfg now ip (estimateTokens msg)
            (checkRequestLimit cfg now ip s).2).2).1.allowed = false
      · simp [hs]
      · simp [hs]

/-- The header decoration path ends in the request-checked store or the
token-checked store after it. -/
theorem addRateLimitHeaders_snd_cases (cfg : RateLimitConfig) (now : Nat)
    (ip : String) (msg : Option String) (s : RateLimitStore) :
    (addRateLimitHeaders cfg now ip msg s).2 = (checkRequestLimit cfg now ip s).2 ∨
    (addRateLimitHeaders cfg now ip msg s).2 =
      (checkTokenLimit cfg now ip 0 (checkRequestLimit cfg now ip s).2).2 := by
  unfold addRateLimitHeaders
  cases msg with
  | none => simp
  | some t =>
      by_cases ht : t.length ≠ 0
      · simp [ht]
      · simp [ht]

theorem applyOp_requestsBounded (cfg : RateLimitConfig) (s : RateLimitStore)
    (op : StoreOp) (h1 : 1 ≤ cfg.requestsLimit) (h : RequestsBounded cfg s) :
    RequestsBounded cfg (applyOp cfg s op) := by
  cases op with
  | reqCheck now ip => exact checkRequestLimit_bounded cfg now ip s h1 h
  | tokCheck now ip est =>
      unfold RequestsBounded at *
      rw [applyOp, checkTokenLimit_requests_eq]
      exact h
  | sesCheck ip sid =>
      unfold RequestsBounded at *
      rw [applyOp, checkSessionLimit_requests_eq]
      exact h
  | sesRelease ip sid =>
      unfold RequestsBounded at *
      rw [applyOp, removeSession_requests_eq]
      exact h
  | sweepRequests now =>
      unfold RequestsBounded at *
      exact MapAll.filter h
  | sweepTokens now =>
      unfold RequestsBounded at *
      exact h
  | facadeCheck now ip sid msg =>
      rw [applyOp]
      rcases checkLimits_snd_cases cfg now ip sid msg s with he | he | he <;> rw [he]
      · exact checkRequestLimit_bounded cfg now ip s h1 h
      · unfold RequestsBounded at *
        rw [checkTokenLimit_requests_eq]
        exact checkRequestLimit_bounded cfg now ip s h1 h
      · unfold RequestsBounded at *
        rw [checkSessionLimit_requests_eq, checkTokenLimit_requests_eq]
        exact checkRequestLimit_bounded cfg now ip s h1 h
  | facadeHeaders now ip msg =>
      rw [applyOp]
      rcases addRateLimitHeaders_snd_cases cfg now ip msg s with he | he <;> rw [he]
      · exact checkRequestLimit_bounded cfg now ip s h1 h
      · unfold RequestsBounded at *
        rw [checkTokenLimit_requests_eq]
        exact checkRequestLimit_bounded cfg now ip s h1 h

theorem applyOp_tokensBounded (cfg : RateLimitConfig) (s : RateLimitStore)
    (op : StoreOp) (hop : OpEstimateOk cfg op) (h : TokensBounded cfg s) :
    TokensBounded cfg (applyOp cfg s op) := by
  cases op with
  | reqCheck now ip =>
      unfold TokensBounded at *
      rw [applyOp, checkRequestLimit_tokens_eq]
      exact h
  | tokCheck now ip est => exact checkTokenLimit_bounded cfg now ip est s hop h
  | sesCheck ip sid =>
      unfold TokensBounded at *
      rw [applyOp, checkSessionLimit_tokens_eq]
      exact h
  | sesRelease ip sid =>
      unfold TokensBounded at *
      rw [applyOp, removeSession_tokens_eq]
      exact h
  | sweepRequests now =>
      unfold TokensBounded at *
      exact h
  | sweepTokens now =>
      unfold TokensBounded at *
      exact MapAll.filter h
  | facadeCheck now ip sid msg =>
      rw [applyOp]
      have hreq : TokensBounded cfg (checkRequestLimit cfg now ip s).2 := by
        unfold TokensBounded at *
        rw [checkRequestLimit_tokens_eq]
        exact h
      rcases checkLimits_snd_cases cfg now ip sid msg s with he | he | he <;> rw [he]
      · exact hreq
      · exact checkTokenLimit_bounded cfg now ip (estimateTokens msg) _ hop hreq
      · unfold TokensBounded at *
        rw [checkSessionLimit_tokens_eq]
        exact checkTokenLimit_bounded cfg now ip (estimateTokens msg) _ hop hreq
  | facadeHeaders now ip msg =>
      rw [applyOp]
      have hreq : TokensBounded cfg (checkRequestLimit cfg now ip s).2 := by
        unfold TokensBounded at *
        rw [checkRequestLimit_tokens_eq]
        exact h
      rcases addRateLimitHeaders_snd_cases cfg now ip msg s with he | he <;> rw [he]
      · exact hreq
      · exact checkTokenLimit_bounded cfg now ip 0 _ (Nat.zero_le _) hreq

theorem runOps_requestsBounded (cfg : RateLimitConfig) (ops : List StoreOp)
    (s : RateLimitStore) (h1 : 1 ≤ cfg.requestsLimit) (h : RequestsBounded cfg s) :
    RequestsBounded cfg (runOps cfg s ops) := by
  induction ops generalizing s with
  | nil => exact h
  | cons op rest ih =>
      exact ih (applyOp cfg s op) (applyOp_requestsBounded cfg s op h1 h)

theorem runOps_tokensBounded (cfg : RateLimitConfig) (ops : List StoreOp)
    (s : RateLimitStore) (hops : ∀ op ∈ ops, OpEstimateOk cfg op)
    (h : TokensBounded cfg s) : TokensBounded cfg (runOps cfg s ops) := by
  induction ops generalizing s with
  | nil => exact h
  | cons op rest ih =>
      exact ih (applyOp cfg s op)
        (fun o ho => hops o (List.mem_cons_of_mem _ ho))
        (applyOp_tokensBounded cfg s op (hops op (List.mem_cons_self _ _)) h)

/-! ### Persistence of a saturated session entry (the session dimension is
time-free: nothing but an explicit release can shrink it) -/

theorem RLMap.get_erase_ne {α : Type} (m : RLMap α) (k k' : String)
    (hne : k ≠ k') : (m.erase k).get k' = m.get k' := by
  induction m with
  | nil => rfl
  | cons hd tl ih =>
      by_cases h : hd.1 = k
      · subst h
        have h2 : ¬ hd.1 = k' := hne
        simp only [RLMap.erase, if_true, RLMap.get, h2, if_false]
      · simp only [RLMap.erase, h, if_false, RLMap.get]
        by_cases h2 : hd.1 = k'
        · simp [h2]
        · simp [h2, ih]

theorem checkSessionLimit_full_entry (cfg : RateLimitConfig) (ip2 sid : String)
    (s : RateLimitStore) (ip : String) (data : SessionLimitData)
    (h : s.sessions.get ip = some data)
    (hfull : cfg.sessionsLimit ≤ data.activeCount) :
    (checkSessionLimit cfg ip2 sid s).2.sessions.get ip = some data := by
  by_cases hip : ip2 = ip
  · subst hip
    unfold checkSessionLimit
    rw [h]
    by_cases hm : sid ∈ data.sessionIds
    · simp only [hm, if_true]
      exact h
    · simp only [hm, if_false, hfull, if_true]
      exact h
  · unfold checkSessionLimit
    cases hg : s.sessions.get ip2 with
    | none =>
        simp only []
        rw [RLMap.get_set_ne _ _ _ _ hip]
        exact h
    | some data2 =>
        by_cases hm : sid ∈ data2.sessionIds
        · simp only [hm, if_true]
          exact h
        · by_cases hf : cfg.sessionsLimit ≤ data2.activeCount
          · simp only [hm, if_false, hf, if_true]
            exact h
          · simp only [hm, if_false, hf]
            rw [RLMap.get_set_ne _ _ _ _ hip]
            exact h

theorem removeSession_other_entry (ip2 sid : String) (s : RateLimitStore)
    (ip : String) (data : SessionLimitData) (h : s.sessions.get ip = some data)
    (hip : ip2 ≠ ip) : (removeSession ip2 sid s).sessions.get ip = some data := by
  unfold removeSession
  cases hg : s.sessions.get ip2 with
  | none => exact h
  | some data2 =>
      by_cases hm : sid ∈ data2.sessionIds
      · simp only [hm, if_true]
        by_cases hc : (data2.sessionIds.erase sid).card = 0
        · simp only [hc, if_true]
          rw [RLMap.get_erase_ne _ _ _ hip]
          exact h
        · simp only [hc, if_false]
          rw [RLMap.get_set_ne _ _ _ _ hip]
          exact h
      · simp only [hm, if_false]
        exact h

theorem applyOp_full_entry (cfg : RateLimitConfig) (s : RateLimitStore) (op : StoreOp)
    (ip : String) (data : SessionLimitData)
    (h : s.sessions.get ip = some data)
    (hfull : cfg.sessionsLimit ≤ data.activeCount)
    (hop : NotReleasing ip op) :
    (applyOp cfg s op).sessions.get ip = some data := by
  cases op with
  | reqCheck now ip2 =>
      rw [applyOp, checkRequestLimit_sessions_eq]
      exact h
  | tokCheck now ip2 est =>
      rw [applyOp, checkTokenLimit_sessions_eq]
      exact h
  | sesCheck ip2 sid => exact checkSessionLimit_full_entry cfg ip2 sid s ip data h hfull
  | sesRelease ip2 sid => exact removeSession_other_entry ip2 sid s ip data h hop
  | sweepRequests now => exact h
  | sweepTokens now => exact h
  | facadeCheck now ip2 sid msg =>
      rw [applyOp]
      have h1 : ((checkRequestLimit cfg now ip2 s).2).sessions.get ip = some data := by
        rw [checkRequestLimit_sessions_eq]; exact h
      have h2 : ((checkTokenLimit cfg now ip2 (estimateTokens msg)
          (checkRequestLimit cfg now ip2 s).2).2).sessions.get ip = some data := by
        rw [checkTokenLimit_sessions_eq]; exact h1
      rcases checkLimits_snd_cases cfg now ip2 sid msg s with he | he | he <;> rw [he]
      · exact h1
      · exact h2
      · exact checkSessionLimit_full_entry cfg ip2 sid _ ip data h2 hfull
  | facadeHeaders now ip2 msg =>
      rw [applyOp]
      have h1 : ((checkRequestLimit cfg now ip2 s).2).sessions.get ip = some data := by
        rw [checkRequestLimit_sessions_eq]; exact h
      rcases addRateLimitHeaders_snd_cases cfg now ip2 msg s with he | he <;> rw [he]
      · exact h1
      · rw [checkTokenLimit_sessions_eq]
        exact h1

theorem runOps_full_entry (cfg : RateLimitConfig) (ops : List StoreOp)
    (s : RateLimitStore) (ip : String) (data : SessionLimitData)
    (h : s.sessions.get ip = some data)
    (hfull : cfg.sessionsLimit ≤ data.activeCount)
    (hops : ∀ op ∈ ops, NotReleasing ip op) :
    (runOps cfg s ops).sessions.get ip = some data := by
  induction ops generalizing s with
  | nil => exact h
  | cons op rest ih =>
      exact ih (applyOp cfg s op)
        (applyOp_full_entry cfg s op ip data h hfull (hops op (List.mem_cons_self _ _)))
        (fun o ho => hops o (List.mem_cons_of_mem _ ho))

/-! ### Dependency and rejection-frame lemmas -/

theorem checkRequestLimit_reject_frame (cfg : RateLimitConfig) (now : Nat)
    (ip : String) (s : RateLimitStore)
    (h : (checkRequestLimit cfg now ip s).1.allowed = false) :
    (checkRequestLimit cfg now ip s).2 = s := by
  unfold checkRequestLimit at *
  cases hm : s.requests.get ip with
  | none => rw [hm] at h; simp at h
  | some data =>
      rw [hm] at h
      by_cases h1 : data.resetTime ≤ now
      · simp [h1] at h
      · by_cases h2 : cfg.requestsLimit ≤ data.count
        · simp [h1, h2]
        · simp [h1, h2] at h

theorem checkSessionLimit_reject_frame (cfg : RateLimitConfig) (ip sid : String)
    (s : RateLimitStore)
    (h : (checkSessionLimit cfg ip sid s).1.allowed = false) :
    (checkSessionLimit cfg ip sid s).2 = s := by
  unfold checkSessionLimit at *
  cases hm : s.sessions.get ip with
  | none => rw [hm] at h; simp at h
  | some data =>
      rw [hm] at h
      by_cases h1 : sid ∈ data.sessionIds
      · simp [h1] at h
      · by_cases h2 : cfg.sessionsLimit ≤ data.activeCount
        · simp [h1, h2]
        · simp [h1, h2] at h

theorem checkRequestLimit_congr (cfg : RateLimitConfig) (now : Nat) (ip : String)
    (p q : RateLimitStore) (h : q.requests = p.requests) :
    (checkRequestLimit cfg now ip q).1 = (checkRequestLimit cfg now ip p).1 ∧
    (checkRequestLimit cfg now ip q).2.requests = (checkRequestLimit cfg now ip p).2.requests := by
  unfold checkRequestLimit
  rw [h]
  cases hm : p.requests.get ip with
  | none => exact ⟨rfl, by simp [h]⟩
  | some data =>
      by_cases h1 : data.resetTime ≤ now
      · simp [h1, h]
      · by_cases h2 : cfg.requestsLimit ≤ data.count
        · simp [h1, h2, h]
        · simp [h1, h2, h]

theorem checkTokenLimit_congr (cfg : RateLimitConfig) (now : Nat) (ip : String)
    (est : Nat) (p q : RateLimitStore) (h : q.tokens = p.tokens) :
    (checkTokenLimit cfg now ip est q).1 = (checkTokenLimit cfg now ip est p).1 ∧
    (checkTokenLimit cfg now ip est q).2.tokens = (checkTokenLimit cfg now ip est p).2.tokens := by
  unfold checkTokenLimit
  rw [h]
  cases hm : p.tokens.get ip with
  | none => exact ⟨rfl, by simp [h]⟩
  | some data =>
      by_cases h1 : data.resetTime ≤ now
      · simp [h1, h]
      · by_cases h2 : cfg.tokensLimit < data.dailyUsage + est
        · simp [h1, h2, h]
        · simp [h1, h2, h]

theorem checkSessionLimit_congr (cfg : RateLimitConfig) (ip sid : String)
    (p q : RateLimitStore) (h : q.sessions = p.sessions) :
    (checkSessionLimit cfg ip sid q).1 = (checkSessionLimit cfg ip sid p).1 ∧
    (checkSessionLimit cfg ip sid q).2.sessions = (checkSessionLimit cfg ip sid p).2.sessions := by
  unfold checkSessionLimit
  rw [h]
  cases hm : p.sessions.get ip with
  | none => exact ⟨rfl, by simp [h]⟩
  | some data =>
      by_cases h1 : sid ∈ data.sessionIds
      · simp [h1, h]
      · by_cases h2 : cfg.sessionsLimit ≤ data.activeCount
        · simp [h1, h2, h]
        · simp [h1, h2, h]

theorem checkBurstLimit_reject_frame (cfg : RateLimitConfigFull) (now : Nat)
    (ip : String) (s : RateLimitStoreFull)
    (h : (checkBurstLimit cfg now ip s).1.allowed = false) :
    (checkBurstLimit cfg now ip s).2 = s := by
  unfold checkBurstLimit at *
  cases hm : s.burstRequests.get ip with
  | none => rw [hm] at h; simp at h
  | some data =>
      rw [hm] at h
      by_cases h1 : data.resetTime ≤ now
      · simp [h1] at h
      · by_cases h2 : cfg.burstLimit ≤ data.count
        · simp [h1, h2]
        · simp [h1, h2] at h

theorem checkBurstLimit_congr (cfg : RateLimitConfigFull) (now : Nat) (ip : String)
    (p q : RateLimitStoreFull) (h : q.burstRequests = p.burstRequests) :
    (checkBurstLimit cfg now ip q).1 = (checkBurstLimit cfg now ip p).1 ∧
    (checkBurstLimit cfg now ip q).2.burstRequests = (checkBurstLimit cfg now ip p).2.burstRequests ∧
    (checkBurstLimit cfg now ip q).2.requests = q.requests ∧
    (checkBurstLimit cfg now ip q).2.tokens = q.tokens ∧
    (checkBurstLimit cfg now ip q).2.sessions = q.sessions := by
  unfold checkBurstLimit
  rw [h]
  cases hm : p.burstRequests.get ip with
  | none => exact ⟨rfl, by simp [h], rfl, rfl, rfl⟩
  | some data =>
      by_cases h1 : data.resetTime ≤ now
      · simp [h1, h]
      · by_cases h2 : cfg.burstLimit ≤ data.count
        · simp [h1, h2, h]
        · simp [h1, h2, h]

/-! ### Claim theorems -/

/-- C2 counterexample: on a store with no budget window for the key (the
claim explicitly includes that state), `checkTokenLimit` with an estimate of
6000 against the limit of 5000 rejects, yet stores `dailyUsage = 6000` where
nothing (consumed 0) was stored before, and reports remaining 0 rather than
`limit - consumed = 5000`. -/
theorem reserveUsage_fresh_reject_mutates :
    (checkTokenLimit defaultConfig 0 "1.2.3.4" 6000 emptyStore).1.allowed = false ∧
    emptyStore.tokens.get "1.2.3.4" = none ∧
    (checkTokenLimit defaultConfig 0 "1.2.3.4" 6000 emptyStore).2.tokens.get "1.2.3.4" =
      some { dailyUsage := 6000, resetTime := 86400000 } ∧
    (checkTokenLimit defaultConfig 0 "1.2.3.4" 6000 emptyStore).1.remaining = 0 ∧
    ((defaultConfig.tokensLimit : Int) - 0 : Int) ≠ 0 := by
  refine ⟨by decide, by decide, by decide, by decide, by decide⟩

/-- C2 (amended): when an unexpired budget window exists for the key, a
`checkTokenLimit` call that rejects leaves the whole store (in particular the
stored `dailyUsage`) unchanged, and reports
`remaining = max 0 (limit - consumed-before)`. -/
theorem reserveUsage_reject_frame (cfg : RateLimitConfig) (now : Nat)
    (ip : String) (est : Nat) (s : RateLimitStore) (data : TokenLimitData)
    (hget : s.tokens.get ip = some data)
    (hlive : now < data.resetTime)
    (hrej : (checkTokenLimit cfg now ip est s).1.allowed = false) :
    (checkTokenLimit cfg now ip est s).2 = s ∧
    (checkTokenLimit cfg now ip est s).1.remaining =
      max 0 ((cfg.tokensLimit : Int) - data.dailyUsage) := by
  unfold checkTokenLimit at *
  rw [hget] at hrej ⊢
  have h1 : ¬ data.resetTime ≤ now := Nat.not_le.mpr hlive
  simp only [h1, if_false] at hrej ⊢
  by_cases h2 : cfg.tokensLimit < data.dailyUsage + est
  · simp [h2]
  · simp [h2] at hrej

/-- Witness for C2's theorem at a concrete rejected call: window live, 4000
consumed of 5000, estimate 2000 rejected, store unchanged, remaining 1000. -/
theorem reserveUsage_reject_frame_witness :
    (checkTokenLimit defaultConfig 0 "a" 2000
        { requests := [], tokens := [("a", { dailyUsage := 4000, resetTime := 1000 })],
          sessions := [] }).2 =
      { requests := [], tokens := [("a", { dailyUsage := 4000, resetTime := 1000 })],
        sessions := [] } ∧
    (checkTokenLimit defaultConfig 0 "a" 2000
        { requests := [], tokens := [("a", { dailyUsage := 4000, resetTime := 1000 })],
          sessions := [] }).1.remaining =
      max 0 ((defaultConfig.tokensLimit : Int) - 4000) :=
  reserveUsage_reject_frame defaultConfig 0 "a" 2000
    { requests := [], tokens := [("a", { dailyUsage := 4000, resetTime := 1000 })],
      sessions := [] }
    { dailyUsage := 4000, resetTime := 1000 }
    (by decide) (by decide) (by decide)

/-- C3 counterexample: a single oversized `checkTokenLimit` on a fresh key
stores `consumed = 6000`, above the configured daily limit 5000, with the
window end a full day away — so the stored consumed value exceeds the limit
while `now < windowEndsAt`. -/
theorem consumed_exceeds_limit_on_oversized_fresh :
    (checkTokenLimit defaultConfig 0 "1.2.3.4" 6000 emptyStore).2.tokens.get "1.2.3.4" =
      some { dailyUsage := 6000, resetTime := 86400000 } ∧
    defaultConfig.tokensLimit < 6000 ∧ (0 : Nat) < 86400000 := by
  refine ⟨by decide, by decide, by decide⟩

/-- C3 (amended): provided every usage estimate fed to the budget dimension
is itself at most the configured daily limit, every stored `dailyUsage`
stays at most the limit under every sequence of store operations. -/
theorem consumed_bounded_of_bounded_estimates (cfg : RateLimitConfig)
    (ops : List StoreOp) (s : RateLimitStore)
    (hs : TokensBounded cfg s)
    (hops : ∀ op ∈ ops, OpEstimateOk cfg op) :
    ∀ ip d, (runOps cfg s ops).tokens.get ip = some d →
      d.dailyUsage ≤ cfg.tokensLimit := by
  intro ip d hg
  have h2 := runOps_tokensBounded cfg ops s hops hs
  unfold TokensBounded MapAll at h2
  exact h2 (ip, d) (RLMap.get_mem _ ip d hg)

/-- Witness for C3's theorem on a concrete two-call day: 4000 then 900
admitted, stored usage 4900 within the limit. -/
theorem consumed_bounded_witness :
    (runOps defaultConfig emptyStore
        [StoreOp.tokCheck 0 "a" 4000, StoreOp.tokCheck 1 "a" 900]).tokens.get "a" =
      some { dailyUsage := 4900, resetTime := 86400000 } ∧
    ({ dailyUsage := 4900, resetTime := 86400000 } : TokenLimitData).dailyUsage ≤
      defaultConfig.tokensLimit := by
  refine ⟨by decide, ?_⟩
  refine consumed_bounded_of_bounded_estimates defaultConfig
    [StoreOp.tokCheck 0 "a" 4000, StoreOp.tokCheck 1 "a" 900] emptyStore
    ?_ ?_ "a" { dailyUsage := 4900, resetTime := 86400000 } (by decide)
  · intro p hp
    exact absurd hp (List.not_mem_nil p)
  · intro op hop
    rcases List.mem_cons.mp hop with h | h
    · subst h; exact (by decide : (4000 : Nat) ≤ 5000)
    · rcases List.mem_cons.mp h with h2 | h2
      · subst h2; exact (by decide : (900 : Nat) ≤ 5000)
      · exact absurd h2 (List.not_mem_nil op)

/-- C6: with at least one request allowed by the configuration (the deployed
configuration allows 10), every stored request count stays at most the
configured request limit under every sequence of store operations. -/
theorem request_count_bounded (cfg : RateLimitConfig) (ops : List StoreOp)
    (s : RateLimitStore) (h1 : 1 ≤ cfg.requestsLimit)
    (hs : RequestsBounded cfg s) :
    ∀ ip d, (runOps cfg s ops).requests.get ip = some d →
      d.count ≤ cfg.requestsLimit := by
  intro ip d hg
  have h2 := runOps_requestsBounded cfg ops s h1 hs
  unfold RequestsBounded MapAll at h2
  exact h2 (ip, d) (RLMap.get_mem _ ip d hg)

/-- Witness for C6's theorem: eleven checks in the same hour leave the stored
count saturated at the limit 10. -/
theorem request_count_bounded_witness :
    (runOps defaultConfig emptyStore
        (List.replicate 11 (StoreOp.reqCheck 0 "a"))).requests.get "a" =
      some { count := 10, resetTime := 3600000 } ∧
    ({ count := 10, resetTime := 3600000 } : RequestLimitData).count ≤
      defaultConfig.requestsLimit := by
  refine ⟨by decide, ?_⟩
  refine request_count_bounded defaultConfig
    (List.replicate 11 (StoreOp.reqCheck 0 "a")) emptyStore (by decide)
    ?_ "a" { count := 10, resetTime := 3600000 } (by decide)
  intro p hp
  exact absurd hp (List.not_mem_nil p)

/-- C7: for a key whose session set already contains the id, repeating
`checkSessionLimit` any number of times leaves the store exactly as it is,
and every one of those calls (each seeing that same store) reports
`allowed = true`. -/
theorem admitSession_idempotent (cfg : RateLimitConfig) (ip sid : String)
    (s : RateLimitStore) (data : SessionLimitData) (n : Nat)
    (hget : s.sessions.get ip = some data)
    (hmem : sid ∈ data.sessionIds) :
    admitSessionIter cfg ip sid n s = s ∧
    (∀ k, (checkSessionLimit cfg ip sid (admitSessionIter cfg ip sid k s)).1.allowed = true) := by
  have hstep : (checkSessionLimit cfg ip sid s).2 = s := by
    unfold checkSessionLimit
    rw [hget]
    simp [hmem]
  have hiter : ∀ k, admitSessionIter cfg ip sid k s = s := fun k =>
    Function.iterate_fixed hstep k
  refine ⟨hiter n, fun k => ?_⟩
  rw [hiter k]
  unfold checkSessionLimit
  rw [hget]
  simp [hmem]

/-- Witness for C7 at a concrete saturated entry holding the id. -/
theorem admitSession_idempotent_witness :
    admitSessionIter defaultConfig "a" "s1" 5
        { requests := [], tokens := [],
          sessions := [("a", { activeCount := 1, sessionIds := {"s1"} })] } =
      { requests := [], tokens := [],
        sessions := [("a", { activeCount := 1, sessionIds := {"s1"} })] } ∧
    (∀ k, (checkSessionLimit defaultConfig "a" "s1"
        (admitSessionIter defaultConfig "a" "s1" k
          { requests := [], tokens := [],
            sessions := [("a", { activeCount := 1, sessionIds := {"s1"} })] })).1.allowed = true) :=
  admitSession_idempotent defaultConfig "a" "s1"
    { requests := [], tokens := [],
      sessions := [("a", { activeCount := 1, sessionIds := {"s1"} })] }
    { activeCount := 1, sessionIds := {"s1"} } 5
    (by decide) (by decide)

/-- C8: once `now` is at or past the stored `resetTime`, the next
request-rate check stores a fresh window with count 1 and reset
`now + requestsWindowMs`, and the next usage-budget check stores a fresh
window with exactly that request's estimate and reset
`now + tokensWindowMs` — whatever was accumulated before. -/
theorem expired_window_fresh_restart (cfg : RateLimitConfig) (now : Nat)
    (ip : String) (est : Nat) (s : RateLimitStore) :
    (∀ d, s.requests.get ip = some d → d.resetTime ≤ now →
      (checkRequestLimit cfg now ip s).1 =
        { allowed := true
          remaining := (cfg.requestsLimit : Int) - 1
          resetTime := now + cfg.requestsWindowMs } ∧
      (checkRequestLimit cfg now ip s).2.requests.get ip =
        some { count := 1, resetTime := now + cfg.requestsWindowMs }) ∧
    (∀ d, s.tokens.get ip = some d → d.resetTime ≤ now →
      (checkTokenLimit cfg now ip est s).1.resetTime = now + cfg.tokensWindowMs ∧
      (checkTokenLimit cfg now ip est s).2.tokens.get ip =
        some { dailyUsage := est, resetTime := now + cfg.tokensWindowMs }) := by
  constructor
  · intro d hget hexp
    unfold checkRequestLimit
    rw [hget]
    simp only [hexp, if_true]
    exact ⟨trivial, RLMap.get_set_self _ _ _⟩
  · intro d hget hexp
    unfold checkTokenLimit
    rw [hget]
    simp only [hexp, if_true]
    exact ⟨trivial, RLMap.get_set_self _ _ _⟩

/-- Witness for C8 on a concrete expired state: count 7 and usage 4999
accumulated, both windows ending at or before time 100; the checks at time
100 restart both windows from this single request. -/
theorem expired_window_fresh_restart_witness :
    ((checkRequestLimit defaultConfig 100 "a"
        { requests := [("a", { count := 7, resetTime := 50 })],
          tokens := [("a", { dailyUsage := 4999, resetTime := 80 })], sessions := [] }).1 =
      { allowed := true
        remaining := (defaultConfig.requestsLimit : Int) - 1
        resetTime := 100 + defaultConfig.requestsWindowMs } ∧
    (checkRequestLimit defaultConfig 100 "a"
        { requests := [("a", { count := 7, resetTime := 50 })],
          tokens := [("a", { dailyUsage := 4999, resetTime := 80 })], sessions := [] }).2.requests.get "a" =
      some { count := 1, resetTime := 100 + defaultConfig.requestsWindowMs }) ∧
    ((checkTokenLimit defaultConfig 100 "a" 123
        { requests := [("a", { count := 7, resetTime := 50 })],
          tokens := [("a", { dailyUsage := 4999, resetTime := 80 })], sessions := [] }).1.resetTime =
      100 + defaultConfig.tokensWindowMs ∧
    (checkTokenLimit defaultConfig 100 "a" 123
        { requests := [("a", { count := 7, resetTime := 50 })],
          tokens := [("a", { dailyUsage := 4999, resetTime := 80 })], sessions := [] }).2.tokens.get "a" =
      some { dailyUsage := 123, resetTime := 100 + defaultConfig.tokensWindowMs }) := by
  have h := expired_window_fresh_restart defaultConfig 100 "a" 123
    { requests := [("a", { count := 7, resetTime := 50 })],
      tokens := [("a", { dailyUsage := 4999, resetTime := 80 })], sessions := [] }
  exact ⟨h.1 { count := 7, resetTime := 50 } (by decide) (by decide),
         h.2 { dailyUsage := 4999, resetTime := 80 } (by decide) (by decide)⟩

/-- C9: a session entry saturated at the cap survives, byte for byte, any
sequence of store operations that contains no session release for its key —
request checks, token checks, session checks for new or old ids, facade
calls and both cleanup sweeps at arbitrary later times included; every
admission attempt for a fresh id against it is rejected without change, and
neither sweep ever touches the sessions map. -/
theorem saturated_sessions_persist (cfg : RateLimitConfig) (s : RateLimitStore)
    (ip : String) (data : SessionLimitData) (ops : List StoreOp)
    (hget : s.sessions.get ip = some data)
    (hfull : cfg.sessionsLimit ≤ data.activeCount)
    (hops : ∀ op ∈ ops, NotReleasing ip op) :
    (runOps cfg s ops).sessions.get ip = some data ∧
    (∀ sid, sid ∉ data.sessionIds →
      (checkSessionLimit cfg ip sid (runOps cfg s ops)).1.allowed = false ∧
      (checkSessionLimit cfg ip sid (runOps cfg s ops)).2 = runOps cfg s ops) ∧
    (∀ t, (cleanExpiredRequests t (runOps cfg s ops)).sessions =
            (runOps cfg s ops).sessions ∧
          (cleanExpiredTokens t (runOps cfg s ops)).sessions =
            (runOps cfg s ops).sessions) := by
  have hrun := runOps_full_entry cfg ops s ip data hget hfull hops
  refine ⟨hrun, fun sid hsid => ?_, fun t => ⟨rfl, rfl⟩⟩
  constructor
  · unfold checkSessionLimit
    rw [hrun]
    simp [hsid, hfull]
  · refine checkSessionLimit_reject_frame cfg ip sid _ ?_
    unfold checkSessionLimit
    rw [hrun]
    simp [hsid, hfull]

/-- Witness for C9: a key saturated at 3 sessions, hit by request checks,
token checks, an old-id session check, a new-id session check, a release for
a different key and both sweeps far in the future; the fresh id d is still
rejected with no change. -/
theorem saturated_sessions_persist_witness :
    (runOps defaultConfig
        { requests := [], tokens := [],
          sessions := [("a", { activeCount := 3, sessionIds := {"x", "y", "z"} })] }
        [StoreOp.reqCheck 5 "a", StoreOp.tokCheck 6 "a" 10, StoreOp.sesCheck "a" "x",
         StoreOp.sesCheck "a" "w", StoreOp.sesRelease "b" "x",
         StoreOp.sweepRequests 999999999, StoreOp.sweepTokens 999999999,
         StoreOp.facadeCheck 7 "a" "x" "hi"]).sessions.get "a" =
      some { activeCount := 3, sessionIds := {"x", "y", "z"} } ∧
    (checkSessionLimit defaultConfig "a" "d"
        (runOps defaultConfig
          { requests := [], tokens := [],
            sessions := [("a", { activeCount := 3, sessionIds := {"x", "y", "z"} })] }
          [StoreOp.reqCheck 5 "a", StoreOp.tokCheck 6 "a" 10, StoreOp.sesCheck "a" "x",
           StoreOp.sesCheck "a" "w", StoreOp.sesRelease "b" "x",
           StoreOp.sweepRequests 999999999, StoreOp.sweepTokens 999999999,
           StoreOp.facadeCheck 7 "a" "x" "hi"])).1.allowed = false := by
  have h := saturated_sessions_persist defaultConfig
    { requests := [], tokens := [],
      sessions := [("a", { activeCount := 3, sessionIds := {"x", "y", "z"} })] }
    "a" { activeCount := 3, sessionIds := {"x", "y", "z"} }
    [StoreOp.reqCheck 5 "a", StoreOp.tokCheck 6 "a" 10, StoreOp.sesCheck "a" "x",
     StoreOp.sesCheck "a" "w", StoreOp.sesRelease "b" "x",
     StoreOp.sweepRequests 999999999, StoreOp.sweepTokens 999999999,
     StoreOp.facadeCheck 7 "a" "x" "hi"]
    (by decide) (by decide)
    (by
      intro op hop
      fin_cases hop <;> simp [NotReleasing])
  exact ⟨h.1, (h.2.1 "d" (by decide)).1⟩

/-- C10: whenever the facade's decision is a session-type rejection, its
`resetTime` is fabricated as `now + 60000`, so `createRateLimitHeaders`
emits `Retry-After: 60` — although the sessions map left behind is exactly
the input one and neither cleanup sweep, at any time, touches it: nothing
actually resets 60 seconds later. -/
theorem session_rejection_retry_after (cfg : RateLimitConfig) (now : Nat)
    (ip sid msg : String) (s : RateLimitStore) (res : RateLimitResult)
    (h : (checkLimits cfg now ip sid msg s).1 = some res)
    (ht : res.type = LimitType.sessions) :
    res.resetTime = now + 60000 ∧
    res.allowed = false ∧
    (createRateLimitHeaders now res).retryAfter = some "60" ∧
    (checkLimits cfg now ip sid msg s).2.sessions = s.sessions ∧
    (∀ t, (cleanExpiredRequests t (checkLimits cfg now ip sid msg s).2).sessions =
            (checkLimits cfg now ip sid msg s).2.sessions ∧
          (cleanExpiredTokens t (checkLimits cfg now ip sid msg s).2).sessions =
            (checkLimits cfg now ip sid msg s).2.sessions) := by
  unfold checkLimits at h ⊢
  by_cases hr : (checkRequestLimit cfg now ip s).1.allowed = false
  · rw [if_pos hr] at h
    simp only [Option.some.injEq] at h
    rw [← h] at ht
    simp at ht
  · rw [if_neg hr] at h ⊢
    by_cases htk : (checkTokenLimit cfg now ip (estimateTokens msg)
        (checkRequestLimit cfg now ip s).2).1.allowed = false
    · rw [if_pos htk] at h
      simp only [Option.some.injEq] at h
      rw [← h] at ht
      simp at ht
    · rw [if_neg htk] at h ⊢
      by_cases hs : (checkSessionLimit cfg ip sid
          (checkTokenLimit cfg now ip (estimateTokens msg)
            (checkRequestLimit cfg now ip s).2).2).1.allowed = false
      · rw [if_pos hs] at h ⊢
        simp only [Option.some.injEq] at h
        subst h
        have hsess : ((checkSessionLimit cfg ip sid
            (checkTokenLimit cfg now ip (estimateTokens msg)
              (checkRequestLimit cfg now ip s).2).2).2).sessions = s.sessions := by
          rw [checkSessionLimit_reject_frame cfg ip sid _ hs,
              checkTokenLimit_sessions_eq, checkRequestLimit_sessions_eq]
        refine ⟨rfl, rfl, ?_, hsess, fun t => ⟨rfl, rfl⟩⟩
        unfold createRateLimitHeaders
        simp only [if_neg (by simp : ¬ (false : Bool) = true)]
        have harg : ((now + 60000 : Nat) : Int) - (now : Int) = 60000 := by
          push_cast
          ring
        rw [harg]
        rfl
      · rw [if_neg hs] at h
        simp at h

/-- Witness for C10 at a concrete session rejection at time 1000: the
reported reset is 61000 and the computed Retry-After is 60 seconds. -/
theorem session_rejection_retry_after_witness :
    ({ allowed := false, resetTime := 1000 + 60000, remaining := 0,
       limit := 3, type := LimitType.sessions } : RateLimitResult).resetTime =
      1000 + 60000 ∧
    (createRateLimitHeaders 1000
      { allowed := false, resetTime := 1000 + 60000, remaining := 0,
        limit := 3, type := LimitType.sessions }).retryAfter = some "60" := by
  have h := session_rejection_retry_after defaultConfig 1000 "a" "new" "hi"
    { requests := [], tokens := [],
      sessions := [("a", { activeCount := 3, sessionIds := {"x", "y", "z"} })] }
    { allowed := false, resetTime := 1000 + 60000, remaining := 0,
      limit := 3, type := LimitType.sessions }
    (by decide) (by decide)
  exact ⟨h.1, h.2.2.1⟩

/-- C1 (code bug evidence): a fully admitted request from a fresh store
leaves the request count at 1, after which the informational-header step
`addRateLimitHeaders` — commented "Get current limits for headers" and
"Check without consuming" in the source — raises it to 2: the header
computation consumes request quota instead of being a non-mutating read. -/
theorem addRateLimitHeaders_mutates_request_counter :
    (checkLimits defaultConfig 0 "9.9.9.9" "s1" "hello" emptyStore).1 = none ∧
    (checkLimits defaultConfig 0 "9.9.9.9" "s1" "hello" emptyStore).2.requests.get "9.9.9.9" =
      some { count := 1, resetTime := 3600000 } ∧
    (addRateLimitHeaders defaultConfig 0 "9.9.9.9" (some "hello")
        (checkLimits defaultConfig 0 "9.9.9.9" "s1" "hello" emptyStore).2).2.requests.get "9.9.9.9" =
      some { count := 2, resetTime := 3600000 } ∧
    ({ count := 2, resetTime := 3600000 } : RequestLimitData) ≠
      { count := 1, resetTime := 3600000 } := by
  refine ⟨by decide, by decide, by decide, by decide⟩

/-! ### Branch lemmas for the burst-variant facade -/

theorem RateLimitStoreFull.withPlain_plain (s : RateLimitStoreFull) :
    s.withPlain s.plain = s := rfl

theorem checkLimitsFull_burst_reject (cfg : RateLimitConfigFull) (now : Nat)
    (ip sid msg : String) (q : RateLimitStoreFull)
    (hb : (checkBurstLimit cfg now ip q).1.allowed = false) :
    checkLimitsFull cfg now ip sid msg q =
      (some { allowed := false
              resetTime := (checkBurstLimit cfg now ip q).1.resetTime
              remaining := (checkBurstLimit cfg now ip q).1.remaining
              limit := cfg.burstLimit
              type := .burst }, q) := by
  unfold checkLimitsFull
  rw [if_pos hb, checkBurstLimit_reject_frame cfg now ip q hb]

theorem checkLimitsFull_request_reject (cfg : RateLimitConfigFull) (now : Nat)
    (ip sid msg : String) (q : RateLimitStoreFull)
    (hb : (checkBurstLimit cfg now ip q).1.allowed = true)
    (hr : (checkRequestLimit cfg.plain now ip
        (checkBurstLimit cfg now ip q).2.plain).1.allowed = false) :
    checkLimitsFull cfg now ip sid msg q =
      (some { allowed := false
              resetTime := (checkRequestLimit cfg.plain now ip
                (checkBurstLimit cfg now ip q).2.plain).1.resetTime
              remaining := (checkRequestLimit cfg.plain now ip
                (checkBurstLimit cfg now ip q).2.plain).1.remaining
              limit := cfg.requestsLimit
              type := .requests }, (checkBurstLimit cfg now ip q).2) := by
  unfold checkLimitsFull
  rw [if_neg (by rw [hb]; simp), if_pos hr,
      checkRequestLimit_reject_frame _ _ _ _ hr,
      RateLimitStoreFull.withPlain_plain]

theorem checkLimitsFull_token_reject (cfg : RateLimitConfigFull) (now : Nat)
    (ip sid msg : String) (q : RateLimitStoreFull)
    (hb : (checkBurstLimit cfg now ip q).1.allowed = true)
    (hr : (checkRequestLimit cfg.plain now ip
        (checkBurstLimit cfg now ip q).2.plain).1.allowed = true)
    (htk : (checkTokenLimit cfg.plain now ip (estimateTokens msg)
        (checkRequestLimit cfg.plain now ip
          (checkBurstLimit cfg now ip q).2.plain).2).1.allowed = false) :
    checkLimitsFull cfg now ip sid msg q =
      (some { allowed := false
              resetTime := (checkTokenLimit cfg.plain now ip (estimateTokens msg)
                (checkRequestLimit cfg.plain now ip
                  (checkBurstLimit cfg now ip q).2.plain).2).1.resetTime
              remaining := (checkTokenLimit cfg.plain now ip (estimateTokens msg)
                (checkRequestLimit cfg.plain now ip
                  (checkBurstLimit cfg now ip q).2.plain).2).1.remaining
              limit := cfg.tokensLimit
              type := .tokens },
       (checkBurstLimit cfg now ip q).2.withPlain
         (checkTokenLimit cfg.plain now ip (estimateTokens msg)
           (checkRequestLimit cfg.plain now ip
             (checkBurstLimit cfg now ip q).2.plain).2).2) := by
  unfold checkLimitsFull
  rw [if_neg (by rw [hb]; simp), if_neg (by rw [hr]; simp), if_pos htk]

theorem checkLimitsFull_all_admit_exempt (cfg : RateLimitConfigFull) (now : Nat)
    (ip sid msg : String) (q : RateLimitStoreFull)
    (hb : (checkBurstLimit cfg now ip q).1.allowed = true)
    (hr : (checkRequestLimit cfg.plain now ip
        (checkBurstLimit cfg now ip q).2.plain).1.allowed = true)
    (htk : (checkTokenLimit cfg.plain now ip (estimateTokens msg)
        (checkRequestLimit cfg.plain now ip
          (checkBurstLimit cfg now ip q).2.plain).2).1.allowed = true)
    (hex : ip ∈ cfg.exemptIPs) :
    checkLimitsFull cfg now ip sid msg q =
      (none,
       (checkBurstLimit cfg now ip q).2.withPlain
         (checkTokenLimit cfg.plain now ip (estimateTokens msg)
           (checkRequestLimit cfg.plain now ip
             (checkBurstLimit cfg now ip q).2.plain).2).2) := by
  unfold checkLimitsFull
  rw [if_neg (by rw [hb]; simp), if_neg (by rw [hr]; simp),
      if_neg (by rw [htk]; simp), if_pos hex]

/-- C4: the burst-variant facade evaluates burst, then request-rate, then
usage-budget, then session; whichever dimension rejects first determines the
decision, and the maps of every dimension after it are neither read (the
decision is the same for arbitrary contents of those maps) nor written (they
come back unchanged). -/
theorem checkLimits_fixed_order_short_circuit (cfg : RateLimitConfigFull)
    (now : Nat) (ip sid msg : String) (s : RateLimitStoreFull) :
    ((checkBurstLimit cfg now ip s).1.allowed = false →
      ∀ rm tm sm,
        (checkLimitsFull cfg now ip sid msg
            { requests := rm, tokens := tm, sessions := sm,
              burstRequests := s.burstRequests }).1 =
          some { allowed := false
                 resetTime := (checkBurstLimit cfg now ip s).1.resetTime
                 remaining := (checkBurstLimit cfg now ip s).1.remaining
                 limit := cfg.burstLimit
                 type := .burst } ∧
        (checkLimitsFull cfg now ip sid msg
            { requests := rm, tokens := tm, sessions := sm,
              burstRequests := s.burstRequests }).2 =
          { requests := rm, tokens := tm, sessions := sm,
            burstRequests := s.burstRequests }) ∧
    ((checkBurstLimit cfg now ip s).1.allowed = true →
     (checkRequestLimit cfg.plain now ip s.plain).1.allowed = false →
      ∀ tm sm,
        (checkLimitsFull cfg now ip sid msg
            { requests := s.requests, tokens := tm, sessions := sm,
              burstRequests := s.burstRequests }).1 =
          some { allowed := false
                 resetTime := (checkRequestLimit cfg.plain now ip s.plain).1.resetTime
                 remaining := (checkRequestLimit cfg.plain now ip s.plain).1.remaining
                 limit := cfg.requestsLimit
                 type := .requests } ∧
        (checkLimitsFull cfg now ip sid msg
            { requests := s.requests, tokens := tm, sessions := sm,
              burstRequests := s.burstRequests }).2.requests = s.requests ∧
        (checkLimitsFull cfg now ip sid msg
            { requests := s.requests, tokens := tm, sessions := sm,
              burstRequests := s.burstRequests }).2.tokens = tm ∧
        (checkLimitsFull cfg now ip sid msg
            { requests := s.requests, tokens := tm, sessions := sm,
              burstRequests := s.burstRequests }).2.sessions = sm) ∧
    ((checkBurstLimit cfg now ip s).1.allowed = true →
     (checkRequestLimit cfg.plain now ip s.plain).1.allowed = true →
     (checkTokenLimit cfg.plain now ip (estimateTokens msg) s.plain).1.allowed = false →
      ∀ sm,
        (checkLimitsFull cfg now ip sid msg
            { requests := s.requests, tokens := s.tokens, sessions := sm,
              burstRequests := s.burstRequests }).1 =
          some { allowed := false
                 resetTime := (checkTokenLimit cfg.plain now ip
                   (estimateTokens msg) s.plain).1.resetTime
                 remaining := (checkTokenLimit cfg.plain now ip
                   (estimateTokens msg) s.plain).1.remaining
                 limit := cfg.tokensLimit
                 type := .tokens } ∧
        (checkLimitsFull cfg now ip sid msg
            { requests := s.requests, tokens := s.tokens, sessions := sm,
              burstRequests := s.burstRequests }).2.sessions = sm) := by
  refine ⟨?_, ?_, ?_⟩
  · intro hb rm tm sm
    have hc := checkBurstLimit_congr cfg now ip s
      { requests := rm, tokens := tm, sessions := sm, burstRequests := s.burstRequests } rfl
    have hb2 : (checkBurstLimit cfg now ip
        { requests := rm, tokens := tm, sessions := sm,
          burstRequests := s.burstRequests }).1.allowed = false := by
      rw [hc.1]; exact hb
    rw [checkLimitsFull_burst_reject cfg now ip sid msg _ hb2]
    refine ⟨?_, rfl⟩
    rw [hc.1]
  · intro hb hr tm sm
    have hc := checkBurstLimit_congr cfg now ip s
      { requests := s.requests, tokens := tm, sessions := sm,
        burstRequests := s.burstRequests } rfl
    have hb2 : (checkBurstLimit cfg now ip
        { requests := s.requests, tokens := tm, sessions := sm,
          burstRequests := s.burstRequests }).1.allowed = true := by
      rw [hc.1]; exact hb
    have hrc := checkRequestLimit_congr cfg.plain now ip s.plain
      ((checkBurstLimit cfg now ip
        { requests := s.requests, tokens := tm, sessions := sm,
          burstRequests := s.burstRequests }).2.plain) hc.2.2.1
    have hr2 : (checkRequestLimit cfg.plain now ip
        (checkBurstLimit cfg now ip
          { requests := s.requests, tokens := tm, sessions := sm,
            burstRequests := s.burstRequests }).2.plain).1.allowed = false := by
      rw [hrc.1]; exact hr
    rw [checkLimitsFull_request_reject cfg now ip sid msg _ hb2 hr2]
    refine ⟨?_, hc.2.2.1, hc.2.2.2.1, hc.2.2.2.2⟩
    rw [hrc.1]
  · intro hb hr htk sm
    have hc := checkBurstLimit_congr cfg now ip s
      { requests := s.requests, tokens := s.tokens, sessions := sm,
        burstRequests := s.burstRequests } rfl
    have hb2 : (checkBurstLimit cfg now ip
        { requests := s.requests, tokens := s.tokens, sessions := sm,
          burstRequests := s.burstRequests }).1.allowed = true := by
      rw [hc.1]; exact hb
    have hrc := checkRequestLimit_congr cfg.plain now ip s.plain
      ((checkBurstLimit cfg now ip
        { requests := s.requests, tokens := s.tokens, sessions := sm,
          burstRequests := s.burstRequests }).2.plain) hc.2.2.1
    have hr2 : (checkRequestLimit cfg.plain now ip
        (checkBurstLimit cfg now ip
          { requests := s.requests, tokens := s.tokens, sessions := sm,
            burstRequests := s.burstRequests }).2.plain).1.allowed = true := by
      rw [hrc.1]; exact hr
    have htokeq : ((checkRequestLimit cfg.plain now ip
        (checkBurstLimit cfg now ip
          { requests := s.requests, tokens := s.tokens, sessions := sm,
            burstRequests := s.burstRequests }).2.plain).2).tokens = s.plain.tokens := by
      rw [checkRequestLimit_tokens_eq]
      exact hc.2.2.2.1
    have htc := checkTokenLimit_congr cfg.plain now ip (estimateTokens msg) s.plain
      ((checkRequestLimit cfg.plain now ip
        (checkBurstLimit cfg now ip
          { requests := s.requests, tokens := s.tokens, sessions := sm,
            burstRequests := s.burstRequests }).2.plain).2) htokeq
    have htk2 : (checkTokenLimit cfg.plain now ip (estimateTokens msg)
        (checkRequestLimit cfg.plain now ip
          (checkBurstLimit cfg now ip
            { requests := s.requests, tokens := s.tokens, sessions := sm,
              burstRequests := s.burstRequests }).2.plain).2).1.allowed = false := by
      rw [htc.1]; exact htk
    rw [checkLimitsFull_token_reject cfg now ip sid msg _ hb2 hr2 htk2]
    constructor
    · rw [htc.1]
    · show (checkTokenLimit cfg.plain now ip (estimateTokens msg)
          (checkRequestLimit cfg.plain now ip
            (checkBurstLimit cfg now ip
              { requests := s.requests, tokens := s.tokens, sessions := sm,
                burstRequests := s.burstRequests }).2.plain).2).2.sessions = sm
      rw [checkTokenLimit_sessions_eq, checkRequestLimit_sessions_eq]
      exact hc.2.2.2.2

theorem checkLimitsFull_session_reject (cfg : RateLimitConfigFull) (now : Nat)
    (ip sid msg : String) (q : RateLimitStoreFull)
    (hb : (checkBurstLimit cfg now ip q).1.allowed = true)
    (hr : (checkRequestLimit cfg.plain now ip
        (checkBurstLimit cfg now ip q).2.plain).1.allowed = true)
    (htk : (checkTokenLimit cfg.plain now ip (estimateTokens msg)
        (checkRequestLimit cfg.plain now ip
          (checkBurstLimit cfg now ip q).2.plain).2).1.allowed = true)
    (hex : ip ∉ cfg.exemptIPs)
    (hs : (checkSessionLimit cfg.plain ip sid
        (checkTokenLimit cfg.plain now ip (estimateTokens msg)
          (checkRequestLimit cfg.plain now ip
            (checkBurstLimit cfg now ip q).2.plain).2).2).1.allowed = false) :
    checkLimitsFull cfg now ip sid msg q =
      (some { allowed := false
              resetTime := now + 60000
              remaining := (checkSessionLimit cfg.plain ip sid
                (checkTokenLimit cfg.plain now ip (estimateTokens msg)
                  (checkRequestLimit cfg.plain now ip
                    (checkBurstLimit cfg now ip q).2.plain).2).2).1.remaining
              limit := cfg.sessionsLimit
              type := .sessions },
       (checkBurstLimit cfg now ip q).2.withPlain
         (checkSessionLimit cfg.plain ip sid
           (checkTokenLimit cfg.plain now ip (estimateTokens msg)
             (checkRequestLimit cfg.plain now ip
               (checkBurstLimit cfg now ip q).2.plain).2).2).2) := by
  unfold checkLimitsFull
  rw [if_neg (by rw [hb]; simp), if_neg (by rw [hr]; simp),
      if_neg (by rw [htk]; simp), if_neg hex, if_pos hs]

theorem checkLimitsFull_all_admit (cfg : RateLimitConfigFull) (now : Nat)
    (ip sid msg : String) (q : RateLimitStoreFull)
    (hb : (checkBurstLimit cfg now ip q).1.allowed = true)
    (hr : (checkRequestLimit cfg.plain now ip
        (checkBurstLimit cfg now ip q).2.plain).1.allowed = true)
    (htk : (checkTokenLimit cfg.plain now ip (estimateTokens msg)
        (checkRequestLimit cfg.plain now ip
          (checkBurstLimit cfg now ip q).2.plain).2).1.allowed = true)
    (hex : ip ∉ cfg.exemptIPs)
    (hs : (checkSessionLimit cfg.plain ip sid
        (checkTokenLimit cfg.plain now ip (estimateTokens msg)
          (checkRequestLimit cfg.plain now ip
            (checkBurstLimit cfg now ip q).2.plain).2).2).1.allowed = true) :
    checkLimitsFull cfg now ip sid msg q =
      (none,
       (checkBurstLimit cfg now ip q).2.withPlain
         (checkSessionLimit cfg.plain ip sid
           (checkTokenLimit cfg.plain now ip (estimateTokens msg)
             (checkRequestLimit cfg.plain now ip
               (checkBurstLimit cfg now ip q).2.plain).2).2).2) := by
  unfold checkLimitsFull
  rw [if_neg (by rw [hb]; simp), if_neg (by rw [hr]; simp),
      if_neg (by rw [htk]; simp), if_neg hex, if_neg (by rw [hs]; simp)]

theorem checkBurstLimit_cfg_congr (cfg cfg2 : RateLimitConfigFull) (now : Nat)
    (ip : String) (s : RateLimitStoreFull)
    (h1 : cfg2.burstLimit = cfg.burstLimit)
    (h2 : cfg2.burstWindowMs = cfg.burstWindowMs) :
    checkBurstLimit cfg2 now ip s = checkBurstLimit cfg now ip s := by
  unfold checkBurstLimit
  rw [h1, h2]

/-- C5: a ClientKey on the exemption list bypasses the session dimension
only: the facade never mutates the sessions map for it and never rejects it
with a session-type decision; any burst-, request- or token-type rejection
it gets is exactly the one any configuration with the same thresholds (and
any exemption list) would give; and when the three cost dimensions admit,
the key is fully admitted no matter how many sessions it holds open. -/
theorem exempt_key_bypasses_sessions_only (cfg : RateLimitConfigFull)
    (now : Nat) (ip sid msg : String) (s : RateLimitStoreFull)
    (hex : ip ∈ cfg.exemptIPs) :
    (checkLimitsFull cfg now ip sid msg s).2.sessions = s.sessions ∧
    (∀ res, (checkLimitsFull cfg now ip sid msg s).1 = some res →
       res.type ≠ LimitType.sessions) ∧
    (∀ (cfg2 : RateLimitConfigFull) res s2,
       cfg2.plain = cfg.plain → cfg2.burstLimit = cfg.burstLimit →
       cfg2.burstWindowMs = cfg.burstWindowMs →
       checkLimitsFull cfg2 now ip sid msg s = (some res, s2) →
       res.type ≠ LimitType.sessions →
       checkLimitsFull cfg now ip sid msg s = (some res, s2)) ∧
    ((checkBurstLimit cfg now ip s).1.allowed = true →
     (checkRequestLimit cfg.plain now ip
        (checkBurstLimit cfg now ip s).2.plain).1.allowed = true →
     (checkTokenLimit cfg.plain now ip (estimateTokens msg)
        (checkRequestLimit cfg.plain now ip
          (checkBurstLimit cfg now ip s).2.plain).2).1.allowed = true →
       (checkLimitsFull cfg now ip sid msg s).1 = none) := by
  have hbs : (checkBurstLimit cfg now ip s).2.sessions = s.sessions :=
    (checkBurstLimit_congr cfg now ip s s rfl).2.2.2.2
  by_cases hb : (checkBurstLimit cfg now ip s).1.allowed = false
  · -- burst rejects
    have he := checkLimitsFull_burst_reject cfg now ip sid msg s hb
    refine ⟨by rw [he], ?_, ?_, ?_⟩
    · intro res hres
      rw [he] at hres
      simp only [Option.some.injEq] at hres
      rw [← hres]
      simp
    · intro cfg2 res s2 hp h1 h2 hrun hns
      have hbc := checkBurstLimit_cfg_congr cfg cfg2 now ip s h1 h2
      have hb2 : (checkBurstLimit cfg2 now ip s).1.allowed = false := by
        rw [hbc]; exact hb
      have he2 := checkLimitsFull_burst_reject cfg2 now ip sid msg s hb2
      rw [hbc, h1] at he2
      rw [he2] at hrun
      rw [he]
      exact hrun
    · intro hbT
      rw [hbT] at hb
      simp at hb
  · have hbT : (checkBurstLimit cfg now ip s).1.allowed = true := by
      revert hb
      cases (checkBurstLimit cfg now ip s).1.allowed <;> simp
    by_cases hr : (checkRequestLimit cfg.plain now ip
        (checkBurstLimit cfg now ip s).2.plain).1.allowed = false
    · -- request-rate rejects
      have he := checkLimitsFull_request_reject cfg now ip sid msg s hbT hr
      refine ⟨by rw [he]; exact hbs, ?_, ?_, ?_⟩
      · intro res hres
        rw [he] at hres
        simp only [Option.some.injEq] at hres
        rw [← hres]
        simp
      · intro cfg2 res s2 hp h1 h2 hrun hns
        have hbc := checkBurstLimit_cfg_congr cfg cfg2 now ip s h1 h2
        have hreq : cfg2.requestsLimit = cfg.requestsLimit :=
          congrArg RateLimitConfig.requestsLimit hp
        have hb2 : (checkBurstLimit cfg2 now ip s).1.allowed = true := by
          rw [hbc]; exact hbT
        have hr2 : (checkRequestLimit cfg2.plain now ip
            (checkBurstLimit cfg2 now ip s).2.plain).1.allowed = false := by
          rw [hbc, hp]; exact hr
        have he2 := checkLimitsFull_request_reject cfg2 now ip sid msg s hb2 hr2
        rw [hbc, hp, hreq] at he2
        rw [he2] at hrun
        rw [he]
        exact hrun
      · intro _ hrT
        rw [hrT] at hr
        simp at hr
    · have hrT : (checkRequestLimit cfg.plain now ip
          (checkBurstLimit cfg now ip s).2.plain).1.allowed = true := by
        revert hr
        cases (checkRequestLimit cfg.plain now ip
          (checkBurstLimit cfg now ip s).2.plain).1.allowed <;> simp
      by_cases htk : (checkTokenLimit cfg.plain now ip (estimateTokens msg)
          (checkRequestLimit cfg.plain now ip
            (checkBurstLimit cfg now ip s).2.plain).2).1.allowed = false
      · -- usage-budget rejects
        have he := checkLimitsFull_token_reject cfg now ip sid msg s hbT hrT htk
        have hsessEq : (checkLimitsFull cfg now ip sid msg s).2.sessions = s.sessions := by
          rw [he]
          show (checkTokenLimit cfg.plain now ip (estimateTokens msg)
            (checkRequestLimit cfg.plain now ip
              (checkBurstLimit cfg now ip s).2.plain).2).2.sessions = s.sessions
          rw [checkTokenLimit_sessions_eq, checkRequestLimit_sessions_eq]
          exact hbs
        refine ⟨hsessEq, ?_, ?_, ?_⟩
        · intro res hres
          rw [he] at hres
          simp only [Option.some.injEq] at hres
          rw [← hres]
          simp
        · intro cfg2 res s2 hp h1 h2 hrun hns
          have hbc := checkBurstLimit_cfg_congr cfg cfg2 now ip s h1 h2
          have htok : cfg2.tokensLimit = cfg.tokensLimit :=
            congrArg RateLimitConfig.tokensLimit hp
          have hb2 : (checkBurstLimit cfg2 now ip s).1.allowed = true := by
            rw [hbc]; exact hbT
          have hr2 : (checkRequestLimit cfg2.plain now ip
              (checkBurstLimit cfg2 now ip s).2.plain).1.allowed = true := by
            rw [hbc, hp]; exact hrT
          have htk2 : (checkTokenLimit cfg2.plain now ip (estimateTokens msg)
              (checkRequestLimit cfg2.plain now ip
                (checkBurstLimit cfg2 now ip s).2.plain).2).1.allowed = false := by
            rw [hbc, hp]; exact htk
          have he2 := checkLimitsFull_token_reject cfg2 now ip sid msg s hb2 hr2 htk2
          rw [hbc, hp, htok] at he2
          rw [he2] at hrun
          rw [he]
          exact hrun
        · intro _ _ htkT
          rw [htkT] at htk
          simp at htk
      · have htkT : (checkTokenLimit cfg.plain now ip (estimateTokens msg)
            (checkRequestLimit cfg.plain now ip
              (checkBurstLimit cfg now ip s).2.plain).2).1.allowed = true := by
          revert htk
          cases (checkTokenLimit cfg.plain now ip (estimateTokens msg)
            (checkRequestLimit cfg.plain now ip
              (checkBurstLimit cfg now ip s).2.plain).2).1.allowed <;> simp
        -- all three cost dimensions admit; ip is exempt, so full admission
        have he := checkLimitsFull_all_admit_exempt cfg now ip sid msg s hbT hrT htkT hex
        have hsessEq : (checkLimitsFull cfg now ip sid msg s).2.sessions = s.sessions := by
          rw [he]
          show (checkTokenLimit cfg.plain now ip (estimateTokens msg)
            (checkRequestLimit cfg.plain now ip
              (checkBurstLimit cfg now ip s).2.plain).2).2.sessions = s.sessions
          rw [checkTokenLimit_sessions_eq, checkRequestLimit_sessions_eq]
          exact hbs
        refine ⟨hsessEq, ?_, ?_, ?_⟩
        · intro res hres
          rw [he] at hres
          simp at hres
        · intro cfg2 res s2 hp h1 h2 hrun hns
          have hbc := checkBurstLimit_cfg_congr cfg cfg2 now ip s h1 h2
          have hb2 : (checkBurstLimit cfg2 now ip s).1.allowed = true := by
            rw [hbc]; exact hbT
          have hr2 : (checkRequestLimit cfg2.plain now ip
              (checkBurstLimit cfg2 now ip s).2.plain).1.allowed = true := by
            rw [hbc, hp]; exact hrT
          have htk2 : (checkTokenLimit cfg2.plain now ip (estimateTokens msg)
              (checkRequestLimit cfg2.plain now ip
                (checkBurstLimit cfg2 now ip s).2.plain).2).1.allowed = true := by
            rw [hbc, hp]; exact htkT
          by_cases hex2 : ip ∈ cfg2.exemptIPs
          · have he2 := checkLimitsFull_all_admit_exempt cfg2 now ip sid msg s hb2 hr2 htk2 hex2
            rw [he2] at hrun
            simp at hrun
          · by_cases hs2 : (checkSessionLimit cfg2.plain ip sid
                (checkTokenLimit cfg2.plain now ip (estimateTokens msg)
                  (checkRequestLimit cfg2.plain now ip
                    (checkBurstLimit cfg2 now ip s).2.plain).2).2).1.allowed = false
            · have he2 := checkLimitsFull_session_reject cfg2 now ip sid msg s hb2 hr2 htk2 hex2 hs2
              rw [he2] at hrun
              simp only [Prod.mk.injEq, Option.some.injEq] at hrun
              rw [← hrun.1] at hns
              simp at hns
            · have hs2T : (checkSessionLimit cfg2.plain ip sid
                  (checkTokenLimit cfg2.plain now ip (estimateTokens msg)
                    (checkRequestLimit cfg2.plain now ip
                      (checkBurstLimit cfg2 now ip s).2.plain).2).2).1.allowed = true := by
                revert hs2
                cases (checkSessionLimit cfg2.plain ip sid
                  (checkTokenLimit cfg2.plain now ip (estimateTokens msg)
                    (checkRequestLimit cfg2.plain now ip
                      (checkBurstLimit cfg2 now ip s).2.plain).2).2).1.allowed <;> simp
              have he2 := checkLimitsFull_all_admit cfg2 now ip sid msg s hb2 hr2 htk2 hex2 hs2T
              rw [he2] at hrun
              simp at hrun
        · intro _ _ _
          rw [he]

/-- Witness for C4 at a concrete burst rejection (burst window saturated at
3 within its 1-second window): the decision is burst-typed and the request,
token and session maps — here holding a nearly saturated request window —
come back untouched. -/
theorem checkLimits_fixed_order_witness :
    (checkLimitsFull
        { requestsLimit := 10, requestsWindowMs := 60000, burstLimit := 3,
          burstWindowMs := 1000, tokensLimit := 5000, tokensWindowMs := 86400000,
          sessionsLimit := 3, sessionsWindowMs := 86400000, exemptIPs := [] }
        0 "a" "s1" "hi"
        { requests := [("a", { count := 9, resetTime := 500 })], tokens := [],
          sessions := [], burstRequests := [("a", { count := 3, resetTime := 2000 })] }).1 =
      some { allowed := false, resetTime := 2000, remaining := 0, limit := 3,
             type := LimitType.burst } ∧
    (checkLimitsFull
        { requestsLimit := 10, requestsWindowMs := 60000, burstLimit := 3,
          burstWindowMs := 1000, tokensLimit := 5000, tokensWindowMs := 86400000,
          sessionsLimit := 3, sessionsWindowMs := 86400000, exemptIPs := [] }
        0 "a" "s1" "hi"
        { requests := [("a", { count := 9, resetTime := 500 })], tokens := [],
          sessions := [], burstRequests := [("a", { count := 3, resetTime := 2000 })] }).2 =
      { requests := [("a", { count := 9, resetTime := 500 })], tokens := [],
        sessions := [], burstRequests := [("a", { count := 3, resetTime := 2000 })] } :=
  (checkLimits_fixed_order_short_circuit
      { requestsLimit := 10, requestsWindowMs := 60000, burstLimit := 3,
        burstWindowMs := 1000, tokensLimit := 5000, tokensWindowMs := 86400000,
        sessionsLimit := 3, sessionsWindowMs := 86400000, exemptIPs := [] }
      0 "a" "s1" "hi"
      { requests := [], tokens := [], sessions := [],
        burstRequests := [("a", { count := 3, resetTime := 2000 })] }).1
    (by decide) [("a", { count := 9, resetTime := 500 })] [] []

/-- Witness for C5: the exempt key 127.0.0.1 already holds five sessions,
two above the cap of three, and is still fully admitted when burst,
request-rate and usage-budget admit. -/
theorem exempt_key_bypasses_witness :
    (checkLimitsFull
        { requestsLimit := 10, requestsWindowMs := 60000, burstLimit := 3,
          burstWindowMs := 1000, tokensLimit := 5000, tokensWindowMs := 86400000,
          sessionsLimit := 3, sessionsWindowMs := 86400000,
          exemptIPs := ["127.0.0.1"] }
        0 "127.0.0.1" "s6" "hi"
        { requests := [], tokens := [],
          sessions := [("127.0.0.1",
            { activeCount := 5, sessionIds := {"s1", "s2", "s3", "s4", "s5"} })],
          burstRequests := [] }).1 = none ∧
    (3 : Nat) < 5 := by
  have h := exempt_key_bypasses_sessions_only
    { requestsLimit := 10, requestsWindowMs := 60000, burstLimit := 3,
      burstWindowMs := 1000, tokensLimit := 5000, tokensWindowMs := 86400000,
      sessionsLimit := 3, sessionsWindowMs := 86400000,
      exemptIPs := ["127.0.0.1"] }
    0 "127.0.0.1" "s6" "hi"
    { requests := [], tokens := [],
      sessions := [("127.0.0.1",
        { activeCount := 5, sessionIds := {"s1", "s2", "s3", "s4", "s5"} })],
      burstRequests := [] }
    (by decide)
  exact ⟨h.2.2.2 (by decide) (by decide) (by decide), by decide⟩
